import Mathlib

/-!
# openrouter-task-master: `mcp-server/src/core/utils/ai-client-utils.js`

A shallow embedding of the client utilities (credential resolution, client
builders, model configuration, model selection and error translation) and
the properties of the specification checked against it.

JavaScript values are embedded as the data type `JSVal`; thrown values are
`JSError`; the logger and the `try`/`catch` structure of the builders are
embedded in the monad `Run`, which records every message handed to the
logger, also on the paths that end in a throw.  The logger is one that
exposes `info`, `debug`, `warn` and `error`, each returning normally; the
global `process.env` and the client constructor of the `openai` package are
explicit parameters.
-/

namespace OpenRouterTaskMaster

/-! ## JavaScript values -/

/-- JavaScript values that the utilities read: `undefined`, `null`, booleans,
numbers, strings and plain objects.  A Number is `num n` when it is an
integer of magnitude at most `2^53` (`maxExactInteger`): up to there every
integer is a Number, held exactly and rendered in plain decimal.  `NaN` is
`nan`, and every other Number (non-integral, infinite, or beyond `2^53`) is
`real shown`, identified by its canonical rendering (as `0.2` or `1e+21`).
The properties that read or render the integer of a `num` carry the bound as
a hypothesis.  An object is its own-property list, in which the first entry
of a name is the one read; function values are not part of the embedding. -/
inductive JSVal where
  | undefined
  | null
  | bool (b : Bool)
  | num (n : Int)
  | nan
  | real (shown : String)
  | str (s : String)
  | obj (props : List (String × JSVal))

/-- The largest magnitude up to which every integer is a Number: `2^53`. -/
def maxExactInteger : Nat := 9007199254740992

/-- A thrown `Error` instance: the constructor name and the message. -/
structure JSError where
  name : String
  message : String
deriving DecidableEq, Repr

/-- The value of `new Error(message)`. -/
def mkError (message : String) : JSError := ⟨"Error", message⟩

/-- The `TypeError` the runtime throws on a bad property read or call. -/
def mkTypeError (message : String) : JSError := ⟨"TypeError", message⟩

/-- Number of UTF-16 code units of a string, the value of `.length` (which
the language keeps below `2^53`). -/
def utf16Length (s : String) : Nat :=
  (s.data.map fun c => if c.toNat < 0x10000 then 1 else 2).sum

namespace JSVal

/-- ToBoolean: the truthiness used by `||`, `!` and `if`. -/
def truthy : JSVal → Bool
  | undefined => false
  | null => false
  | bool b => b
  | num n => n != 0
  | nan => false
  | real _ => true
  | str s => s != ""
  | obj _ => true

/-- The operator `a || b`. -/
def or (a b : JSVal) : JSVal := if a.truthy then a else b

/-- Whether the value is `null` or `undefined`. -/
def nullish : JSVal → Bool
  | undefined => true
  | null => true
  | _ => false

/-- Property read on a value that is neither `null` nor `undefined`: an own
property of an object, `length` of a string, and `undefined` otherwise. -/
def get (v : JSVal) (k : String) : JSVal :=
  match v with
  | obj props => (props.lookup k).getD undefined
  | str s => if k = "length" then num (utf16Length s) else undefined
  | _ => undefined

/-- The member expression `v.k`: a `TypeError` on `null` and `undefined`
(with the message text of V8). -/
def member (v : JSVal) (k : String) : Except JSError JSVal :=
  match v with
  | undefined =>
    .error (mkTypeError ("Cannot read properties of undefined (reading \x27" ++ k ++ "\x27)"))
  | null =>
    .error (mkTypeError ("Cannot read properties of null (reading \x27" ++ k ++ "\x27)"))
  | w => .ok (w.get k)

/-- The optional chain `v?.k`: `undefined` on `null` and `undefined`. -/
def optMember (v : JSVal) (k : String) : JSVal :=
  if v.nullish then undefined else v.get k

/-- ToString, as applied by a template literal.  An integer `num n`, of
magnitude at most `2^53`, renders in plain decimal; any other Number is
carried by its rendering.  Plain objects render as `[object Object]`. -/
def toStr : JSVal → String
  | undefined => "undefined"
  | null => "null"
  | bool true => "true"
  | bool false => "false"
  | num n => toString n
  | nan => "NaN"
  | real shown => shown
  | str s => s
  | obj _ => "[object Object]"

/-- Strict equality `v === n` with a numeric literal `n`, as used by the
`case` labels of a `switch`. -/
def strictEqNum (v : JSVal) (n : Int) : Bool :=
  match v with
  | num k => k == n
  | _ => false

end JSVal

/-! ## String built-ins -/

/-- Lower-casing of one code point, as far as ASCII is concerned: `A`-`Z`
go to `a`-`z`, the Kelvin sign U+212A goes to `k`, and U+0130 goes to `i`
followed by the combining dot U+0307.  Every other code point lower-cases to
non-ASCII code points and is left in place, which does not change where an
ASCII search string occurs. -/
def lowerChar (c : Char) : List Char :=
  if 65 ≤ c.toNat ∧ c.toNat ≤ 90 then [Char.ofNat (c.toNat + 32)]
  else if c.toNat = 0x212A then [Char.ofNat 107]
  else if c.toNat = 0x130 then [Char.ofNat 105, Char.ofNat 0x307]
  else [c]

/-- The method `String.prototype.toLowerCase`. -/
def toLowerCase (s : String) : String := ⟨s.data.flatMap lowerChar⟩

/-- The method `String.prototype.includes`: the search string occurs as a
contiguous run of the receiver. -/
def includes (s searchString : String) : Bool :=
  decide (searchString.data <:+: s.data)

/-- The condition `v?.toLowerCase().includes(searchString)`: the chain
short-circuits to `undefined` (falsy) on a nullish `v`, and calling
`toLowerCase` on a value that is not a string is a `TypeError`. -/
def optLowerIncludes (v : JSVal) (searchString : String) : Except JSError Bool :=
  match v with
  | .undefined => .ok false
  | .null => .ok false
  | .str s => .ok (includes (toLowerCase s) searchString)
  | _ => .error (mkTypeError "error.message?.toLowerCase is not a function")

/-! ## `handleClaudeError` -/

/-- The function `handleClaudeError(error)`. -/
def handleClaudeError (error : JSVal) : Except JSError String := do
  let statusCode := (error.optMember "status").or (error.optMember "statusCode")
  if statusCode.truthy then
    if statusCode.strictEqNum 429 then
      return "Rate limit exceeded. Please wait a few minutes before making more requests."
    else if statusCode.strictEqNum 402 then
      return "Insufficient credits. Please add more credits to your OpenRouter account."
    else if statusCode.strictEqNum 404 then
      return "Model not found. Please check the model name."
    else if statusCode.strictEqNum 400 then
      return "Bad request. Please check your request parameters."
    else if statusCode.strictEqNum 401 then
      return "Authentication error. Please check your API key."
    else if statusCode.strictEqNum 500 then
      return "OpenRouter server error. Please try again later."
    else
      let message ← error.member "message"
      return "OpenRouter API error (" ++ statusCode.toStr ++ "): " ++ message.toStr
  else
    if (← optLowerIncludes (← error.member "message") "timeout") then
      return "The request to OpenRouter timed out. Please try again."
    else if (← optLowerIncludes (← error.member "message") "network") then
      return "There was a network error connecting to OpenRouter. Please check your internet connection and try again."
    else
      let message ← error.member "message"
      return "Error communicating with OpenRouter: " ++ message.toStr

/-! ## Environments, logger and client library -/

/-- An environment: variable names with their string values. -/
abbrev Env := List (String × String)

/-- The read `env.NAME`: the string value, or `undefined` when unset. -/
def envGet (env : Env) (name : String) : JSVal :=
  match env.lookup name with
  | some v => .str v
  | none => .undefined

/-- The MCP session object: its `env` property, which may be missing, holds
environment variables, whose values are strings. -/
structure Session where
  env : Option Env

/-- The chain `session?.env?.NAME` on a session that may be `undefined`. -/
def sessionEnv (session : Option Session) (name : String) : JSVal :=
  match session with
  | none => .undefined
  | some s =>
    match s.env with
    | none => .undefined
    | some env => envGet env name

/-- The logger methods. -/
inductive Level where
  | info
  | debug
  | warn
  | error
deriving DecidableEq, Repr

/-- One call of a logger method with its message. -/
structure LogEntry where
  level : Level
  message : String
deriving DecidableEq, Repr

/-- A computation that logs and either returns or throws: the messages
handed to the logger, in order, and the outcome. -/
structure Run (α : Type) where
  logs : List LogEntry
  result : Except JSError α

namespace Run

/-- Return without logging. -/
def ret {α : Type} (a : α) : Run α := ⟨[], .ok a⟩

/-- Sequencing: the second step runs only when the first returns. -/
def andThen {α β : Type} (x : Run α) (f : α → Run β) : Run β :=
  match x.result with
  | .error e => ⟨x.logs, .error e⟩
  | .ok a => ⟨x.logs ++ (f a).logs, (f a).result⟩

/-- The statement `throw e`. -/
def raise {α : Type} (e : JSError) : Run α := ⟨[], .error e⟩

/-- The statement `try x catch (e) handler`. -/
def attempt {α : Type} (x : Run α) (handler : JSError → Run α) : Run α :=
  match x.result with
  | .ok a => ⟨x.logs, .ok a⟩
  | .error e => ⟨x.logs ++ (handler e).logs, (handler e).result⟩

/-- A call `log.level(message)`. -/
def log (level : Level) (message : String) : Run Unit := ⟨[⟨level, message⟩], .ok ()⟩

/-- An expression that may throw and does not log. -/
def lift {α : Type} (x : Except JSError α) : Run α := ⟨[], x⟩

instance : Monad Run where
  pure := ret
  bind := andThen

instance : MonadExcept JSError Run where
  throw := raise
  tryCatch := attempt

end Run

/-- The options object handed to the client constructor `new OpenAI(...)`.
The two headers `HTTP-Referer` and `X-Title` are present for the OpenRouter
client only. -/
structure OpenAIConfig where
  apiKey : JSVal
  baseURL : String
  defaultHeaders : Option (JSVal × JSVal)

/-- The client constructor of the `openai` package, which is not part of the
repository: it returns a client object or throws. -/
abbrev OpenAICtor := OpenAIConfig → Except JSError JSVal

/-! ## The client builders -/

/-- The function `getAnthropicClientForMCP(session, log)`. -/
def getAnthropicClientForMCP (OpenAI : OpenAICtor) (processEnv : Env)
    (session : Option Session) : Run JSVal :=
  try
    let apiKey :=
      (sessionEnv session "ANTHROPIC_API_KEY").or (envGet processEnv "ANTHROPIC_API_KEY")
    if !apiKey.truthy then
      throw (mkError "ANTHROPIC_API_KEY not found in session environment or process.env")
    let siteUrl :=
      ((sessionEnv session "YOUR_SITE_URL").or (envGet processEnv "YOUR_SITE_URL")).or
        (.str "https://task-master-ai.app")
    let siteName :=
      ((sessionEnv session "YOUR_SITE_NAME").or (envGet processEnv "YOUR_SITE_NAME")).or
        (.str "Task Master AI")
    Run.log .info ("Initializing OpenRouter client with ANTHROPIC_API_KEY (length: "
      ++ (apiKey.get "length").toStr ++ ")")
    Run.log .debug ("OpenRouter client configuration: baseURL=https://openrouter.ai/api/v1, siteUrl="
      ++ siteUrl.toStr ++ ", siteName=" ++ siteName.toStr)
    let client ← Run.lift (OpenAI
      { apiKey := apiKey
        baseURL := "https://openrouter.ai/api/v1"
        defaultHeaders := some (siteUrl, siteName) })
    if !client.truthy || !(client.get "chat").truthy
        || !((client.get "chat").get "completions").truthy then
      throw (mkError "OpenRouter client was not properly initialized")
    Run.log .info "OpenRouter client successfully initialized"
    return client
  catch error =>
    Run.log .error ("Failed to initialize OpenRouter client: " ++ error.message)
    throw error

/-- The function `getPerplexityClientForMCP(session, log)`.  Loading the
`openai` package dynamically either yields the constructor or rejects. -/
def getPerplexityClientForMCP (importOpenAI : Except JSError OpenAICtor) (processEnv : Env)
    (session : Option Session) : Run JSVal :=
  try
    let apiKey :=
      (sessionEnv session "PERPLEXITY_API_KEY").or (envGet processEnv "PERPLEXITY_API_KEY")
    if !apiKey.truthy then
      throw (mkError "PERPLEXITY_API_KEY not found in session environment or process.env")
    let OpenAI ← Run.lift importOpenAI
    Run.lift (OpenAI
      { apiKey := apiKey
        baseURL := "https://api.perplexity.ai"
        defaultHeaders := none })
  catch error =>
    Run.log .error ("Failed to initialize Perplexity client: " ++ error.message)
    throw error

/-! ## `getBestAvailableAIModel` -/

/-- The `options` argument: each flag may be omitted. -/
structure Options where
  requiresResearch : Option Bool := none
  claudeOverloaded : Option Bool := none

/-- The object returned by the selection: `modelName` is present on the
`claude` result only. -/
structure Selection where
  type : String
  client : JSVal
  modelName : Option String

/-- The function `getBestAvailableAIModel(session, options, log)`. -/
def getBestAvailableAIModel (OpenAI : OpenAICtor) (importOpenAI : Except JSError OpenAICtor)
    (processEnv : Env) (session : Option Session) (options : Options := {}) :
    Run Selection := do
  let requiresResearch := options.requiresResearch.getD false
  let claudeOverloaded := options.claudeOverloaded.getD false
  if ((sessionEnv session "ANTHROPIC_API_KEY").or
      (envGet processEnv "ANTHROPIC_API_KEY")).truthy then
    try
      let client ← getAnthropicClientForMCP OpenAI processEnv session
      let mut modelName := "anthropic/claude-3.7-sonnet"
      if requiresResearch then
        modelName := "anthropic/claude-3.7-sonnet"
      if claudeOverloaded then
        Run.log .warn "Claude appears to be overloaded, using alternative model"
        modelName := "openai/gpt-4o"
      return { type := "claude", client := client, modelName := some modelName }
    catch error =>
      Run.log .error ("OpenRouter not available: " ++ error.message)
  if requiresResearch && ((sessionEnv session "PERPLEXITY_API_KEY").or
      (envGet processEnv "PERPLEXITY_API_KEY")).truthy then
    try
      let client ← getPerplexityClientForMCP importOpenAI processEnv session
      return { type := "perplexity", client := client, modelName := none }
    catch error =>
      Run.log .warn ("Perplexity not available: " ++ error.message)
  throw (mkError "No AI models available. Please check your API keys.")

/-! ## `getModelConfig` -/

/-- The white space that `parseInt` skips at the start of its input
(StrWhiteSpaceChar: tab, line feed, vertical tab, form feed, carriage
return, space, no-break space, the space separators, the line and paragraph
separators and the byte-order mark). -/
def isStrWhiteSpace (c : Char) : Bool :=
  decide (c.toNat ∈ [0x9, 0xA, 0xB, 0xC, 0xD, 0x20, 0xA0, 0x1680, 0x2028, 0x2029, 0x202F,
    0x205F, 0x3000, 0xFEFF]) || (decide (0x2000 ≤ c.toNat) && decide (c.toNat ≤ 0x200A))

/-- The value of a character as a digit of the given radix, if it is one. -/
def digitValue (radix : Nat) (c : Char) : Option Nat :=
  let v : Option Nat :=
    if 48 ≤ c.toNat ∧ c.toNat ≤ 57 then some (c.toNat - 48)
    else if 97 ≤ c.toNat ∧ c.toNat ≤ 122 then some (c.toNat - 87)
    else if 65 ≤ c.toNat ∧ c.toNat ≤ 90 then some (c.toNat - 55)
    else none
  v.filter fun d => decide (d < radix)

/-- The built-in `parseInt(string)` without a radix, on the characters of
its input: leading white space is skipped, then an optional sign, then an
optional `0x` or `0X` selecting radix 16 (radix 10 otherwise); the longest
run of digits is the value and an empty run gives `NaN`.  A value of
magnitude at most `2^53` is a Number exactly.  Beyond that the result is the
floating-point Number the runtime rounds the integer to (possibly
`Infinity`), which is the parameter `numberOfInteger`. -/
def parseIntChars (numberOfInteger : Int → JSVal) (input : List Char) : JSVal :=
  let s := input.dropWhile isStrWhiteSpace
  let negative := s.head? == some (Char.ofNat 45)
  let s := if s.head? == some (Char.ofNat 45) || s.head? == some (Char.ofNat 43) then s.tail else s
  let hex := s.take 2 == [Char.ofNat 48, Char.ofNat 120] || s.take 2 == [Char.ofNat 48, Char.ofNat 88]
  let radix := if hex then 16 else 10
  let s := if hex then s.drop 2 else s
  let z := s.takeWhile fun c => (digitValue radix c).isSome
  if z.isEmpty then .nan
  else
    let mathInt : Nat := z.foldl (fun acc c => acc * radix + (digitValue radix c).getD 0) 0
    let signed : Int := if negative then -(mathInt : Int) else (mathInt : Int)
    if mathInt ≤ maxExactInteger then .num signed else numberOfInteger signed

/-- The built-in `parseInt(value)`: the argument is converted with ToString
first. -/
def parseInt (numberOfInteger : Int → JSVal) (v : JSVal) : JSVal :=
  parseIntChars numberOfInteger v.toStr.data

/-- The `defaults` argument of `getModelConfig`. -/
structure ModelDefaults where
  model : JSVal
  maxTokens : JSVal
  temperature : JSVal

/-- The constant `DEFAULT_MAX_TOKENS`. -/
def DEFAULT_MAX_TOKENS : JSVal := .num 64000

/-- The constant `DEFAULT_TEMPERATURE`. -/
def DEFAULT_TEMPERATURE : JSVal := .real "0.2"

/-- The constant `DEFAULT_MODEL`. -/
def DEFAULT_MODEL : JSVal := .str "anthropic/claude-3.7-sonnet"

/-- The constant `DEFAULT_MODEL_CONFIG`. -/
def DEFAULT_MODEL_CONFIG : ModelDefaults :=
  { model := DEFAULT_MODEL
    maxTokens := DEFAULT_MAX_TOKENS
    temperature := DEFAULT_TEMPERATURE }

/-- The object returned by `getModelConfig`. -/
structure ModelConfig where
  model : JSVal
  maxTokens : JSVal
  temperature : JSVal

/-- The function `getModelConfig(session, defaults)`.  The floating-point
parts of the two built-ins are parameters: `numberOfInteger` is the rounding
`parseInt` applies to an integer beyond `2^53`, and `parseFloat` is applied
to the ToString of its argument. -/
def getModelConfig (numberOfInteger : Int → JSVal) (parseFloat : String → JSVal)
    (session : Option Session) (defaults : ModelDefaults := DEFAULT_MODEL_CONFIG) :
    ModelConfig :=
  { model := (sessionEnv session "MODEL").or defaults.model
    maxTokens := parseInt numberOfInteger
      ((sessionEnv session "MAX_TOKENS").or defaults.maxTokens)
    temperature := parseFloat ((sessionEnv session "TEMPERATURE").or defaults.temperature).toStr }

/-! ## Definitions used to state the properties -/

/-- Letter-case variants of a lower-case letter `d`: the letter itself, its
capital, and for `k` also the Kelvin sign U+212A, whose lower case is `k`. -/
def sameLetter (c d : Char) : Prop :=
  c = d ∨ c = d.toUpper ∨ (d = Char.ofNat 107 ∧ c = Char.ofNat 0x212A)

/-- The text `m` contains the search string in some letter case: a
contiguous run of `m` spells it, letter by letter, up to case. -/
def containsAnyCase (m searchString : String) : Prop :=
  ∃ run, run <:+: m.data ∧ List.Forall₂ sameLetter run searchString.data

/-- The value is a non-empty string: what an environment has to provide for
a credential. -/
def providesNonEmpty (v : JSVal) : Prop := ∃ s : String, v = .str s ∧ s ≠ ""

/-- The capability shape the OpenRouter builder verifies: a truthy client
with a truthy `chat` holding a truthy `completions`. -/
def clientShapeOk (client : JSVal) : Bool :=
  client.truthy && (client.get "chat").truthy && ((client.get "chat").get "completions").truthy

/-- The site URL the OpenRouter builder resolves. -/
def resolvedSiteUrl (processEnv : Env) (session : Option Session) : JSVal :=
  ((sessionEnv session "YOUR_SITE_URL").or (envGet processEnv "YOUR_SITE_URL")).or
    (.str "https://task-master-ai.app")

/-- The site name the OpenRouter builder resolves. -/
def resolvedSiteName (processEnv : Env) (session : Option Session) : JSVal :=
  ((sessionEnv session "YOUR_SITE_NAME").or (envGet processEnv "YOUR_SITE_NAME")).or
    (.str "Task Master AI")

/-- The options the OpenRouter builder hands to the client constructor for
an API key. -/
def openRouterConfig (processEnv : Env) (session : Option Session) (apiKey : JSVal) :
    OpenAIConfig :=
  { apiKey := apiKey
    baseURL := "https://openrouter.ai/api/v1"
    defaultHeaders := some (resolvedSiteUrl processEnv session, resolvedSiteName processEnv session) }

/-- The options the Perplexity builder hands to the client constructor for
an API key. -/
def perplexityConfig (apiKey : JSVal) : OpenAIConfig :=
  { apiKey := apiKey
    baseURL := "https://api.perplexity.ai"
    defaultHeaders := none }

/-- The two log lines the OpenRouter builder writes before it constructs the
client, for an API key. -/
def openRouterPreamble (processEnv : Env) (session : Option Session) (apiKey : JSVal) :
    List LogEntry :=
  [⟨.info, "Initializing OpenRouter client with ANTHROPIC_API_KEY (length: "
      ++ (apiKey.get "length").toStr ++ ")"⟩,
   ⟨.debug, "OpenRouter client configuration: baseURL=https://openrouter.ai/api/v1, siteUrl="
      ++ (resolvedSiteUrl processEnv session).toStr ++ ", siteName="
      ++ (resolvedSiteName processEnv session).toStr⟩]

/-- A credential is resolvable: the session environment or the process
environment provides a non-empty string for the key. -/
def credentialResolvable (processEnv : Env) (session : Option Session) (key : String) : Prop :=
  providesNonEmpty (sessionEnv session key) ∨ providesNonEmpty (envGet processEnv key)

/-- What the OpenRouter builder makes of the constructor outcome: a throw
is passed on and a returned client is verified for its shape. -/
def verifiedClient (r : Except JSError JSVal) : Except JSError JSVal :=
  match r with
  | .error e => .error e
  | .ok client =>
    if clientShapeOk client then .ok client
    else .error (mkError "OpenRouter client was not properly initialized")

/-- Two constructor outcomes show the same behaviour: both throw, with the
same message, or both return a client, of the same shape. -/
def sameBehaviour (r₁ r₂ : Except JSError JSVal) : Prop :=
  match r₁, r₂ with
  | .error e₁, .error e₂ => e₁.message = e₂.message
  | .ok c₁, .ok c₂ => clientShapeOk c₁ = clientShapeOk c₂
  | _, _ => False

/-- A client constructor that always returns a well-shaped client, which
records the options it was given. -/
def echoClient : OpenAICtor := fun cfg =>
  .ok (.obj [("apiKey", cfg.apiKey), ("baseURL", .str cfg.baseURL),
    ("chat", .obj [("completions", .obj [])])])

/-- A client constructor that always throws. -/
def failingClient : OpenAICtor := fun _ => .error (mkError "Connection refused")

/-- The precedence the specification states for a field of the model
configuration: the session-scoped value when present, otherwise the
process-wide value when present, otherwise the supplied default. -/
def specResolveField (sessionValue processValue defaultValue : JSVal) : JSVal :=
  match sessionValue, processValue with
  | .undefined, .undefined => defaultValue
  | .undefined, p => p
  | s, _ => s

/-- A stand-in for the built-in `parseFloat` in the examples: the Number
written as its input text. -/
def parseFloatText (s : String) : JSVal := .real s

/-- A stand-in, in the examples, for the rounding of an integer beyond
`2^53` to a Number; no example reaches it. -/
def numberOfIntegerText (n : Int) : JSVal := .real (toString n)

/-! ## String built-ins: lower-casing and search -/

theorem lowerChar_cases (c : Char) :
    lowerChar c = [Char.ofNat 105, Char.ofNat 0x307] ∨ ∃ x, lowerChar c = [x] := by
  unfold lowerChar
  split_ifs <;> simp

theorem toNat_ofNat_small (n : Nat) (h : n < 0xd800) : (Char.ofNat n).toNat = n := by
  unfold Char.ofNat
  rw [dif_pos (Or.inl h)]
  rfl

theorem char_eq_iff (a b : Char) : a = b ↔ a.toNat = b.toNat := by
  constructor
  · intro h; rw [h]
  · intro h
    rw [← Char.ofNat_toNat a, ← Char.ofNat_toNat b, h]

theorem lowerChar_eq_singleton_iff (c d : Char) (hd : 97 ≤ d.toNat ∧ d.toNat ≤ 122) :
    lowerChar c = [d] ↔ sameLetter c d := by
  have hU : d.toUpper = Char.ofNat (d.toNat - 32) := by
    unfold Char.toUpper
    simp [hd]
  unfold lowerChar sameLetter
  rw [hU]
  split_ifs with h1 h2 h3
  · simp only [List.cons.injEq, and_true, char_eq_iff, toNat_ofNat_small _ (show c.toNat + 32 < 0xd800 by omega),
      toNat_ofNat_small _ (show d.toNat - 32 < 0xd800 by omega), toNat_ofNat_small 107 (by norm_num),
      toNat_ofNat_small 0x212A (by norm_num)]
    omega
  · simp only [List.cons.injEq, and_true, char_eq_iff,
      toNat_ofNat_small _ (show d.toNat - 32 < 0xd800 by omega), toNat_ofNat_small 107 (by norm_num),
      toNat_ofNat_small 0x212A (by norm_num)]
    omega
  · simp only [List.cons.injEq, and_true, char_eq_iff,
      toNat_ofNat_small _ (show d.toNat - 32 < 0xd800 by omega), toNat_ofNat_small 107 (by norm_num),
      toNat_ofNat_small 0x212A (by norm_num)]
    constructor
    · intro h; simp at h
    · omega
  · simp only [List.cons.injEq, and_true, char_eq_iff,
      toNat_ofNat_small _ (show d.toNat - 32 < 0xd800 by omega), toNat_ofNat_small 107 (by norm_num),
      toNat_ofNat_small 0x212A (by norm_num)]
    omega

theorem flatMap_lowerChar_head (N : List Char) (hN : ∀ d ∈ N, d.toNat ≤ 122)
    (hlast : N.getLast? ≠ some (Char.ofNat 105)) :
    ∀ m : List Char, N <+: m.flatMap lowerChar →
      ∃ run, run <+: m ∧ List.Forall₂ (fun c d => lowerChar c = [d]) run N := by
  induction N with
  | nil => intro m _; exact ⟨[], List.nil_prefix, List.Forall₂.nil⟩
  | cons d N ih =>
    intro m hm
    cases m with
    | nil => simp at hm
    | cons c m =>
      rw [List.flatMap_cons] at hm
      rcases lowerChar_cases c with hc | ⟨x, hc⟩
      · rw [hc] at hm
        simp only [List.cons_append, List.nil_append] at hm
        rw [List.cons_prefix_cons] at hm
        obtain ⟨rfl, hm⟩ := hm
        cases N with
        | nil => simp at hlast
        | cons e N =>
          rw [List.cons_prefix_cons] at hm
          have := hN e (by simp)
          rw [hm.1] at this
          simp at this
      · rw [hc] at hm
        simp only [List.cons_append, List.nil_append] at hm
        rw [List.cons_prefix_cons] at hm
        obtain ⟨rfl, hm⟩ := hm
        have hlast2 : N.getLast? ≠ some (Char.ofNat 105) := by
          cases N with
          | nil => simp
          | cons e N => simpa [List.getLast?_cons_cons] using hlast
        obtain ⟨run, hrun, hall⟩ := ih (fun e he => hN e (List.mem_cons_of_mem _ he)) hlast2 m hm
        exact ⟨c :: run, by rw [List.cons_prefix_cons]; exact ⟨rfl, hrun⟩, List.Forall₂.cons hc hall⟩

theorem flatMap_lowerChar_run (N : List Char) (hne : N ≠ []) (hN : ∀ d ∈ N, d.toNat ≤ 122)
    (hlast : N.getLast? ≠ some (Char.ofNat 105)) :
    ∀ m : List Char, N <:+: m.flatMap lowerChar →
      ∃ run, run <:+: m ∧ List.Forall₂ (fun c d => lowerChar c = [d]) run N := by
  intro m
  induction m with
  | nil =>
    intro h
    simp at h
    exact absurd h hne
  | cons c m ih =>
    intro h
    have key : N <+: (c :: m).flatMap lowerChar ∨ N <:+: m.flatMap lowerChar := by
      rw [List.flatMap_cons] at h ⊢
      rcases lowerChar_cases c with hc | ⟨x, hc⟩
      · rw [hc] at h ⊢
        simp only [List.cons_append, List.nil_append] at h ⊢
        rcases List.infix_cons_iff.1 h with h1 | h1
        · exact Or.inl h1
        · rcases List.infix_cons_iff.1 h1 with h2 | h2
          · exfalso
            cases N with
            | nil => exact hne rfl
            | cons e N =>
              rw [List.cons_prefix_cons] at h2
              have := hN e (by simp)
              rw [h2.1] at this
              simp at this
          · exact Or.inr h2
      · rw [hc] at h ⊢
        simp only [List.cons_append, List.nil_append] at h ⊢
        exact List.infix_cons_iff.1 h
    rcases key with h1 | h1
    · obtain ⟨run, hrun, hall⟩ := flatMap_lowerChar_head N hN hlast _ h1
      exact ⟨run, hrun.isInfix, hall⟩
    · obtain ⟨run, hrun, hall⟩ := ih h1
      exact ⟨run, List.infix_cons hrun, hall⟩

theorem flatMap_lowerChar_of_run (N run : List Char)
    (hall : List.Forall₂ (fun c d => lowerChar c = [d]) run N) :
    run.flatMap lowerChar = N := by
  induction hall with
  | nil => rfl
  | cons h _ ih => rw [List.flatMap_cons, h, ih]; rfl


theorem forall₂_imp_right {R S : Char → Char → Prop} {l N : List Char}
    (h : List.Forall₂ R l N) (himp : ∀ c d, d ∈ N → R c d → S c d) : List.Forall₂ S l N := by
  induction h with
  | nil => exact List.Forall₂.nil
  | cons hr _ ih =>
    exact List.Forall₂.cons (himp _ _ (List.mem_cons_self _ _) hr)
      (ih fun c d hd => himp c d (List.mem_cons_of_mem _ hd))

theorem includes_iff (s t : String) : includes s t = true ↔ t.data <:+: s.data := by
  simp [includes]

theorem containsAnyCase_iff (m searchString : String) (hne : searchString.data ≠ [])
    (hN : ∀ d ∈ searchString.data, 97 ≤ d.toNat ∧ d.toNat ≤ 122)
    (hlast : searchString.data.getLast? ≠ some (Char.ofNat 105)) :
    includes (toLowerCase m) searchString = true ↔ containsAnyCase m searchString := by
  rw [includes_iff]
  have hconv : ∀ run : List Char,
      List.Forall₂ (fun c d => lowerChar c = [d]) run searchString.data ↔
        List.Forall₂ sameLetter run searchString.data := by
    intro run
    constructor
    · intro h
      exact forall₂_imp_right h fun c d hd => (lowerChar_eq_singleton_iff c d (hN d hd)).1
    · intro h
      exact forall₂_imp_right h fun c d hd => (lowerChar_eq_singleton_iff c d (hN d hd)).2
  constructor
  · intro h
    obtain ⟨run, hrun, hall⟩ := flatMap_lowerChar_run searchString.data hne
      (fun d hd => (hN d hd).2) hlast m.data h
    exact ⟨run, hrun, (hconv run).1 hall⟩
  · rintro ⟨run, ⟨pre, post, hrun⟩, hall⟩
    have := flatMap_lowerChar_of_run _ _ ((hconv run).2 hall)
    refine ⟨pre.flatMap lowerChar, post.flatMap lowerChar, ?_⟩
    show _ = m.data.flatMap lowerChar
    rw [← hrun, List.flatMap_append, List.flatMap_append, this]

theorem containsAnyCase_timeout (m : String) :
    includes (toLowerCase m) "timeout" = true ↔ containsAnyCase m "timeout" :=
  containsAnyCase_iff m "timeout" (by decide) (by decide) (by decide)

theorem containsAnyCase_network (m : String) :
    includes (toLowerCase m) "network" = true ↔ containsAnyCase m "network" :=
  containsAnyCase_iff m "network" (by decide) (by decide) (by decide)

/-! ## `handleClaudeError`: properties -/

theorem statusCode_eq (error : JSVal) (c : Int) (hc : c ≠ 0)
    (hstatus : error.optMember "status" = .num c ∨
      ((error.optMember "status").truthy = false ∧ error.optMember "statusCode" = .num c)) :
    (error.optMember "status").or (error.optMember "statusCode") = .num c := by
  rcases hstatus with h | ⟨h1, h2⟩
  · rw [h]
    simp [JSVal.or, JSVal.truthy, hc]
  · simp [JSVal.or, h1, h2]

theorem member_of_optMember (error : JSVal) (k : String) (v : JSVal)
    (h : error.optMember k = v) (hv : v ≠ .undefined) : error.member k = .ok v := by
  cases error <;> simp_all [JSVal.optMember, JSVal.member, JSVal.nullish]

theorem handleClaudeError_no_status (error : JSVal) (m : String)
    (hstatus : ((error.optMember "status").or (error.optMember "statusCode")).truthy = false)
    (hmsg : error.member "message" = .ok (.str m)) :
    (includes (toLowerCase m) "timeout" = true →
      handleClaudeError error = .ok "The request to OpenRouter timed out. Please try again.") ∧
    (includes (toLowerCase m) "timeout" ≠ true → includes (toLowerCase m) "network" = true →
      handleClaudeError error = .ok "There was a network error connecting to OpenRouter. Please check your internet connection and try again.") ∧
    (includes (toLowerCase m) "timeout" ≠ true → includes (toLowerCase m) "network" ≠ true →
      handleClaudeError error = .ok ("Error communicating with OpenRouter: " ++ m)) := by
  unfold handleClaudeError
  simp only [hstatus, hmsg, bind, Except.bind, pure, Except.pure, optLowerIncludes, JSVal.toStr]
  refine ⟨?_, ?_, ?_⟩
  · intro h; simp [h]
  · intro h1 h2; simp [h1, h2]
  · intro h1 h2; simp [h1, h2]

/-- C4 (amended): the status code of an error is the value of `status` when
that is truthy, and otherwise the value of `statusCode` (so also when
`status` is 0 or absent).  When that code is a nonzero integer `c` (of
magnitude at most `2^53`), whatever the message, `handleClaudeError` returns
the fixed table entry for 429, 402, 404, 400, 401 and 500, and for every
other such code the templated message `OpenRouter API error (c): <message>`,
which contains the decimal code and the message text.  When neither
`status` nor `statusCode` is truthy (each is 0 or absent), no status branch
is taken and the message text decides: the timeout message, the network
message, or `Error communicating with OpenRouter: ` followed by the
message. -/
theorem handleClaudeError_status (error : JSVal) :
    (∀ c : Int, c ≠ 0 → c.natAbs ≤ maxExactInteger →
      (error.optMember "status" = .num c ∨
        ((error.optMember "status").truthy = false ∧
          error.optMember "statusCode" = .num c)) →
      (c = 429 → handleClaudeError error =
        .ok "Rate limit exceeded. Please wait a few minutes before making more requests.") ∧
      (c = 402 → handleClaudeError error =
        .ok "Insufficient credits. Please add more credits to your OpenRouter account.") ∧
      (c = 404 → handleClaudeError error = .ok "Model not found. Please check the model name.") ∧
      (c = 400 → handleClaudeError error =
        .ok "Bad request. Please check your request parameters.") ∧
      (c = 401 → handleClaudeError error =
        .ok "Authentication error. Please check your API key.") ∧
      (c = 500 → handleClaudeError error =
        .ok "OpenRouter server error. Please try again later.") ∧
      (∀ m : String, error.optMember "message" = .str m →
        c ∉ ([429, 402, 404, 400, 401, 500] : List Int) →
        handleClaudeError error = .ok ("OpenRouter API error (" ++ toString c ++ "): " ++ m) ∧
        includes ("OpenRouter API error (" ++ toString c ++ "): " ++ m) (toString c) = true ∧
        includes ("OpenRouter API error (" ++ toString c ++ "): " ++ m) m = true)) ∧
    ((error.optMember "status").truthy = false →
      (error.optMember "statusCode").truthy = false →
      ∀ m : String, error.member "message" = .ok (.str m) →
        (containsAnyCase m "timeout" → handleClaudeError error =
          .ok "The request to OpenRouter timed out. Please try again.") ∧
        (¬ containsAnyCase m "timeout" → containsAnyCase m "network" →
          handleClaudeError error = .ok "There was a network error connecting to OpenRouter. Please check your internet connection and try again.") ∧
        (¬ containsAnyCase m "timeout" → ¬ containsAnyCase m "network" →
          handleClaudeError error = .ok ("Error communicating with OpenRouter: " ++ m))) := by
  constructor
  · intro c hc _ hstatus
    have hs := statusCode_eq error c hc hstatus
    have ht : (JSVal.num c).truthy = true := by simp [JSVal.truthy, hc]
    refine ⟨?_, ?_, ?_, ?_, ?_, ?_, ?_⟩
    · rintro rfl
      simp [handleClaudeError, hs, ht, JSVal.strictEqNum]
      rfl
    · rintro rfl
      simp [handleClaudeError, hs, ht, JSVal.strictEqNum]
      rfl
    · rintro rfl
      simp [handleClaudeError, hs, ht, JSVal.strictEqNum]
      rfl
    · rintro rfl
      simp [handleClaudeError, hs, ht, JSVal.strictEqNum]
      rfl
    · rintro rfl
      simp [handleClaudeError, hs, ht, JSVal.strictEqNum]
      rfl
    · rintro rfl
      simp [handleClaudeError, hs, ht, JSVal.strictEqNum]
      rfl
    · intro m hm hne
      simp only [List.mem_cons, List.mem_singleton, List.not_mem_nil, or_false, not_or] at hne
      obtain ⟨h1, h2, h3, h4, h5, h6⟩ := hne
      have hmem := member_of_optMember error "message" (.str m) hm (by simp)
      refine ⟨?_, ?_, ?_⟩
      · simp [handleClaudeError, hs, ht, JSVal.strictEqNum, h1, h2, h3, h4, h5, h6, hmem,
          JSVal.toStr, bind, Except.bind, pure, Except.pure]
      · rw [includes_iff]
        simp only [String.data_append]
        exact ⟨"OpenRouter API error (".data, "): ".data ++ m.data, by simp⟩
      · rw [includes_iff]
        simp only [String.data_append]
        exact ⟨"OpenRouter API error (".data ++ (toString c).data ++ "): ".data, [], by simp⟩
  · intro h1 h2 m hm
    have hor : ((error.optMember "status").or (error.optMember "statusCode")).truthy = false := by
      simp [JSVal.or, h1, h2]
    have key := handleClaudeError_no_status error m hor hm
    rw [← containsAnyCase_timeout, ← containsAnyCase_network]
    exact key

/-- C4, witness: with `status` 0, `statusCode` 999 and the message `boom`
the code is 999 and the templated message answers; with `status` 0 alone the
message path answers. -/
theorem handleClaudeError_status_witness :
    (handleClaudeError
        (.obj [("status", .num 0), ("statusCode", .num 999), ("message", .str "boom")]) =
        .ok ("OpenRouter API error (" ++ toString (999 : Int) ++ "): " ++ "boom") ∧
      includes ("OpenRouter API error (" ++ toString (999 : Int) ++ "): " ++ "boom")
        (toString (999 : Int)) = true ∧
      includes ("OpenRouter API error (" ++ toString (999 : Int) ++ "): " ++ "boom") "boom" =
        true) ∧
    handleClaudeError (.obj [("status", .num 0), ("message", .str "boom")]) =
      .ok ("Error communicating with OpenRouter: " ++ "boom") :=
  ⟨((handleClaudeError_status
      (.obj [("status", .num 0), ("statusCode", .num 999), ("message", .str "boom")])).1 999
      (by decide) (by decide) (Or.inr ⟨rfl, rfl⟩)).2.2.2.2.2.2 "boom" rfl (by decide),
    ((handleClaudeError_status (.obj [("status", .num 0), ("message", .str "boom")])).2
      rfl rfl "boom" rfl).2.2
      (fun h => absurd ((containsAnyCase_timeout "boom").2 h) (by decide))
      (fun h => absurd ((containsAnyCase_network "boom").2 h) (by decide))⟩

/-- C4, counterexample: an error that carries the status code 0 and the
message `boom` does not get the templated message for the code 0: the code
counts as absent and the message path answers. -/
theorem handleClaudeError_status_zero :
    handleClaudeError (.obj [("status", .num 0), ("message", .str "boom")]) =
        .ok "Error communicating with OpenRouter: boom" ∧
      handleClaudeError (.obj [("status", .num 0), ("message", .str "boom")]) ≠
        .ok ("OpenRouter API error (" ++ toString (0 : Int) ++ "): " ++ "boom") := by
  refine ⟨rfl, ?_⟩
  rw [show handleClaudeError (.obj [("status", .num 0), ("message", .str "boom")]) =
    .ok "Error communicating with OpenRouter: boom" from rfl]
  intro h
  injection h with h
  revert h
  decide

/-- C5: for every error without a status code whose message is the string
`m`: when `m` contains `timeout` in any letter case the result is the
timeout message (whether or not `m` contains `network`); otherwise, when `m`
contains `network` in any letter case, it is the network message, which
contains `network error`; otherwise it is
`Error communicating with OpenRouter: ` followed by `m` unchanged. -/
theorem handleClaudeError_message (error : JSVal) (m : String)
    (hstatus : ((error.optMember "status").or (error.optMember "statusCode")).truthy = false)
    (hmsg : error.member "message" = .ok (.str m)) :
    (containsAnyCase m "timeout" →
      handleClaudeError error = .ok "The request to OpenRouter timed out. Please try again.") ∧
    (¬ containsAnyCase m "timeout" → containsAnyCase m "network" →
      handleClaudeError error = .ok "There was a network error connecting to OpenRouter. Please check your internet connection and try again." ∧
      includes "There was a network error connecting to OpenRouter. Please check your internet connection and try again." "network error" = true) ∧
    (¬ containsAnyCase m "timeout" → ¬ containsAnyCase m "network" →
      handleClaudeError error = .ok ("Error communicating with OpenRouter: " ++ m)) := by
  rw [← containsAnyCase_timeout, ← containsAnyCase_network]
  unfold handleClaudeError
  simp only [hstatus, hmsg, bind, Except.bind, pure, Except.pure, optLowerIncludes, JSVal.toStr]
  refine ⟨?_, ?_, ?_⟩
  · intro h; simp [h]
  · intro h1 h2
    refine ⟨by simp [h1, h2], by decide⟩
  · intro h1 h2; simp [h1, h2]


/-- C5, witness: the message `Network TIMEOUT`, which contains both words,
yields the timeout message. -/
theorem handleClaudeError_message_witness :
    handleClaudeError (.obj [("message", .str "Network TIMEOUT")]) =
      .ok "The request to OpenRouter timed out. Please try again." :=
  (handleClaudeError_message (.obj [("message", .str "Network TIMEOUT")]) "Network TIMEOUT"
    rfl rfl).1 ((containsAnyCase_timeout "Network TIMEOUT").1 (by decide))

/-- C6, the code at the failing inputs: on `null`, on `undefined` and on an
error whose message is the number 42 (and that has no status code),
`handleClaudeError` throws a `TypeError` instead of returning a string. -/
theorem handleClaudeError_raises :
    handleClaudeError .null =
        .error (mkTypeError "Cannot read properties of null (reading \x27message\x27)") ∧
      handleClaudeError .undefined =
        .error (mkTypeError "Cannot read properties of undefined (reading \x27message\x27)") ∧
      handleClaudeError (.obj [("message", .num 42)]) =
        .error (mkTypeError "error.message?.toLowerCase is not a function") :=
  ⟨rfl, rfl, rfl⟩

/-! ## The client builders: closed forms -/

theorem getAnthropicClientForMCP_missing (OpenAI : OpenAICtor) (processEnv : Env)
    (session : Option Session)
    (h : ((sessionEnv session "ANTHROPIC_API_KEY").or
      (envGet processEnv "ANTHROPIC_API_KEY")).truthy = false) :
    getAnthropicClientForMCP OpenAI processEnv session =
      ⟨[⟨.error, "Failed to initialize OpenRouter client: ANTHROPIC_API_KEY not found in session environment or process.env"⟩],
        .error (mkError "ANTHROPIC_API_KEY not found in session environment or process.env")⟩ := by
  unfold getAnthropicClientForMCP
  simp [h, bind, pure, tryCatch, tryCatchThe, MonadExcept.tryCatch, throw, throwThe,
    MonadExcept.throw, Run.andThen, Run.attempt, Run.ret, Run.raise, Run.log, Run.lift, mkError]

theorem getAnthropicClientForMCP_present (OpenAI : OpenAICtor) (processEnv : Env)
    (session : Option Session) (apiKey : JSVal)
    (hk : (sessionEnv session "ANTHROPIC_API_KEY").or
      (envGet processEnv "ANTHROPIC_API_KEY") = apiKey)
    (h : apiKey.truthy = true) :
    getAnthropicClientForMCP OpenAI processEnv session =
      match OpenAI (openRouterConfig processEnv session apiKey) with
      | .error e =>
        ⟨openRouterPreamble processEnv session apiKey ++
          [⟨.error, "Failed to initialize OpenRouter client: " ++ e.message⟩], .error e⟩
      | .ok client =>
        if clientShapeOk client then
          ⟨openRouterPreamble processEnv session apiKey ++
            [⟨.info, "OpenRouter client successfully initialized"⟩], .ok client⟩
        else
          ⟨openRouterPreamble processEnv session apiKey ++
            [⟨.error, "Failed to initialize OpenRouter client: OpenRouter client was not properly initialized"⟩],
            .error (mkError "OpenRouter client was not properly initialized")⟩ := by
  unfold getAnthropicClientForMCP
  simp only [hk, h, openRouterConfig, resolvedSiteUrl, resolvedSiteName, openRouterPreamble]
  cases hlib : OpenAI _ with
  | error e =>
    simp [hlib, bind, pure, tryCatch, tryCatchThe, MonadExcept.tryCatch, throw, throwThe,
      MonadExcept.throw, Run.andThen, Run.attempt, Run.ret, Run.raise, Run.log, Run.lift]
  | ok client =>
    by_cases hs : clientShapeOk client = true
    · have hs2 := hs
      simp only [clientShapeOk, Bool.and_eq_true] at hs2
      simp [hlib, hs, hs2, bind, pure, tryCatch, tryCatchThe, MonadExcept.tryCatch, throw, throwThe,
        MonadExcept.throw, Run.andThen, Run.attempt, Run.ret, Run.raise, Run.log, Run.lift]
    · have hs2 := hs
      simp only [clientShapeOk, Bool.and_eq_true, not_and_or, Bool.not_eq_true] at hs2
      simp only [Bool.not_eq_true] at hs
      rcases hs2 with (h1 | h1) | h1 <;>
      simp [hlib, hs, h1, bind, pure, tryCatch, tryCatchThe, MonadExcept.tryCatch, throw, throwThe,
        MonadExcept.throw, Run.andThen, Run.attempt, Run.ret, Run.raise, Run.log, Run.lift, mkError]

theorem getPerplexityClientForMCP_missing (importOpenAI : Except JSError OpenAICtor)
    (processEnv : Env) (session : Option Session)
    (h : ((sessionEnv session "PERPLEXITY_API_KEY").or
      (envGet processEnv "PERPLEXITY_API_KEY")).truthy = false) :
    getPerplexityClientForMCP importOpenAI processEnv session =
      ⟨[⟨.error, "Failed to initialize Perplexity client: PERPLEXITY_API_KEY not found in session environment or process.env"⟩],
        .error (mkError "PERPLEXITY_API_KEY not found in session environment or process.env")⟩ := by
  unfold getPerplexityClientForMCP
  simp [h, bind, pure, tryCatch, tryCatchThe, MonadExcept.tryCatch, throw, throwThe,
    MonadExcept.throw, Run.andThen, Run.attempt, Run.ret, Run.raise, Run.log, Run.lift, mkError]

theorem getPerplexityClientForMCP_present (importOpenAI : Except JSError OpenAICtor)
    (processEnv : Env) (session : Option Session) (apiKey : JSVal)
    (hk : (sessionEnv session "PERPLEXITY_API_KEY").or
      (envGet processEnv "PERPLEXITY_API_KEY") = apiKey)
    (h : apiKey.truthy = true) :
    getPerplexityClientForMCP importOpenAI processEnv session =
      match importOpenAI with
      | .error e => ⟨[⟨.error, "Failed to initialize Perplexity client: " ++ e.message⟩], .error e⟩
      | .ok OpenAI =>
        match OpenAI (perplexityConfig apiKey) with
        | .error e =>
          ⟨[⟨.error, "Failed to initialize Perplexity client: " ++ e.message⟩], .error e⟩
        | .ok client => ⟨[], .ok client⟩ := by
  unfold getPerplexityClientForMCP
  simp only [hk, h, perplexityConfig]
  cases importOpenAI with
  | error e =>
    simp [bind, pure, tryCatch, tryCatchThe, MonadExcept.tryCatch, throw, throwThe,
      MonadExcept.throw, Run.andThen, Run.attempt, Run.ret, Run.raise, Run.log, Run.lift]
  | ok OpenAI =>
    rcases hlib : OpenAI (perplexityConfig apiKey) with e | client
    · simp only [perplexityConfig] at hlib
      simp [hlib, bind, pure, tryCatch, tryCatchThe, MonadExcept.tryCatch, throw, throwThe,
        MonadExcept.throw, Run.andThen, Run.attempt, Run.ret, Run.raise, Run.log, Run.lift]
    · simp only [perplexityConfig] at hlib
      simp [hlib, bind, pure, tryCatch, tryCatchThe, MonadExcept.tryCatch, throw, throwThe,
        MonadExcept.throw, Run.andThen, Run.attempt, Run.ret, Run.raise, Run.log, Run.lift]

/-! ## Credentials -/

theorem sessionEnv_cases (session : Option Session) (key : String) :
    sessionEnv session key = .undefined ∨ ∃ s, sessionEnv session key = .str s := by
  unfold sessionEnv envGet
  rcases session with _ | ⟨_ | env⟩
  · exact Or.inl rfl
  · exact Or.inl rfl
  · cases h : List.lookup key env with
    | none => exact Or.inl (by simp [h])
    | some v => exact Or.inr ⟨v, by simp [h]⟩

theorem envGet_cases (env : Env) (key : String) :
    envGet env key = .undefined ∨ ∃ s, envGet env key = .str s := by
  unfold envGet
  cases h : List.lookup key env
  · exact Or.inl rfl
  · exact Or.inr ⟨_, rfl⟩

theorem truthy_iff_providesNonEmpty (v : JSVal) (hv : v = .undefined ∨ ∃ s, v = .str s) :
    v.truthy = true ↔ providesNonEmpty v := by
  rcases hv with rfl | ⟨s, rfl⟩
  · simp [JSVal.truthy, providesNonEmpty]
  · simp [JSVal.truthy, providesNonEmpty]

theorem resolvable_iff (processEnv : Env) (session : Option Session) (key : String) :
    ((sessionEnv session key).or (envGet processEnv key)).truthy = true ↔
      credentialResolvable processEnv session key := by
  unfold credentialResolvable
  rw [← truthy_iff_providesNonEmpty _ (sessionEnv_cases session key),
    ← truthy_iff_providesNonEmpty _ (envGet_cases processEnv key)]
  unfold JSVal.or
  by_cases h : (sessionEnv session key).truthy = true
  · simp [h]
  · simp [h]

/-! ## `getBestAvailableAIModel`: the three outcomes -/

theorem getBest_primary (OpenAI : OpenAICtor) (importOpenAI : Except JSError OpenAICtor)
    (processEnv : Env) (session : Option Session) (options : Options) (client : JSVal)
    (hkey : ((sessionEnv session "ANTHROPIC_API_KEY").or
      (envGet processEnv "ANTHROPIC_API_KEY")).truthy = true)
    (h : (getAnthropicClientForMCP OpenAI processEnv session).result = .ok client) :
    (getBestAvailableAIModel OpenAI importOpenAI processEnv session options).result =
      .ok { type := "claude", client := client,
            modelName := some (if options.claudeOverloaded.getD false = true then "openai/gpt-4o"
              else "anthropic/claude-3.7-sonnet") } := by
  unfold getBestAvailableAIModel
  simp only [hkey, bind, pure, tryCatch, tryCatchThe, MonadExcept.tryCatch, throw, throwThe,
    MonadExcept.throw, Run.andThen, Run.attempt, Run.ret, Run.raise, Run.log, Run.lift]
  generalize getAnthropicClientForMCP OpenAI processEnv session = r at h ⊢
  obtain ⟨l, res⟩ := r
  simp only at h
  subst h
  cases options.requiresResearch.getD false <;> cases options.claudeOverloaded.getD false <;> simp

theorem getBest_secondary (OpenAI : OpenAICtor) (importOpenAI : Except JSError OpenAICtor)
    (processEnv : Env) (session : Option Session) (options : Options) (client : JSVal)
    (hprimary : ((sessionEnv session "ANTHROPIC_API_KEY").or
        (envGet processEnv "ANTHROPIC_API_KEY")).truthy = false ∨
      ∃ e, (getAnthropicClientForMCP OpenAI processEnv session).result = .error e)
    (hresearch : options.requiresResearch.getD false = true)
    (hkey : ((sessionEnv session "PERPLEXITY_API_KEY").or
      (envGet processEnv "PERPLEXITY_API_KEY")).truthy = true)
    (h : (getPerplexityClientForMCP importOpenAI processEnv session).result = .ok client) :
    (getBestAvailableAIModel OpenAI importOpenAI processEnv session options).result =
      .ok { type := "perplexity", client := client, modelName := none } := by
  unfold getBestAvailableAIModel
  simp only [hkey, hresearch, bind, pure, tryCatch, tryCatchThe, MonadExcept.tryCatch, throw,
    throwThe, MonadExcept.throw, Run.andThen, Run.attempt, Run.ret, Run.raise, Run.log, Run.lift]
  generalize getPerplexityClientForMCP importOpenAI processEnv session = p at h ⊢
  obtain ⟨lp, resp⟩ := p
  simp only at h
  subst h
  rcases hprimary with hk | ⟨e, he⟩
  · simp [hk]
  · generalize getAnthropicClientForMCP OpenAI processEnv session = r at he ⊢
    obtain ⟨l, res⟩ := r
    simp only at he
    subst he
    cases options.claudeOverloaded.getD false <;>
      cases ((sessionEnv session "ANTHROPIC_API_KEY").or
        (envGet processEnv "ANTHROPIC_API_KEY")).truthy <;> simp

theorem getBest_exhausted (OpenAI : OpenAICtor) (importOpenAI : Except JSError OpenAICtor)
    (processEnv : Env) (session : Option Session) (options : Options)
    (hprimary : ((sessionEnv session "ANTHROPIC_API_KEY").or
        (envGet processEnv "ANTHROPIC_API_KEY")).truthy = false ∨
      ∃ e, (getAnthropicClientForMCP OpenAI processEnv session).result = .error e)
    (hsecondary : options.requiresResearch.getD false = false ∨
      ((sessionEnv session "PERPLEXITY_API_KEY").or
        (envGet processEnv "PERPLEXITY_API_KEY")).truthy = false ∨
      ∃ e, (getPerplexityClientForMCP importOpenAI processEnv session).result = .error e) :
    (getBestAvailableAIModel OpenAI importOpenAI processEnv session options).result =
      .error (mkError "No AI models available. Please check your API keys.") := by
  unfold getBestAvailableAIModel
  simp only [bind, pure, tryCatch, tryCatchThe, MonadExcept.tryCatch, throw,
    throwThe, MonadExcept.throw, Run.andThen, Run.attempt, Run.ret, Run.raise, Run.log, Run.lift]
  rcases hprimary with hk | ⟨e, he⟩
  · rcases hsecondary with hr | hp | ⟨e2, he2⟩
    · simp [hk, hr]
    · simp [hk, hp]
    · generalize getPerplexityClientForMCP importOpenAI processEnv session = p at he2 ⊢
      obtain ⟨lp, resp⟩ := p
      simp only at he2
      subst he2
      cases options.requiresResearch.getD false <;>
        cases ((sessionEnv session "PERPLEXITY_API_KEY").or
          (envGet processEnv "PERPLEXITY_API_KEY")).truthy <;> simp [hk]
  · generalize getAnthropicClientForMCP OpenAI processEnv session = r at he ⊢
    obtain ⟨l, res⟩ := r
    simp only at he
    subst he
    rcases hsecondary with hr | hp | ⟨e2, he2⟩
    · cases ((sessionEnv session "ANTHROPIC_API_KEY").or
        (envGet processEnv "ANTHROPIC_API_KEY")).truthy <;> simp [hr]
    · cases ((sessionEnv session "ANTHROPIC_API_KEY").or
        (envGet processEnv "ANTHROPIC_API_KEY")).truthy <;> simp [hp]
    · generalize getPerplexityClientForMCP importOpenAI processEnv session = p at he2 ⊢
      obtain ⟨lp, resp⟩ := p
      simp only at he2
      subst he2
      cases options.requiresResearch.getD false <;>
        cases ((sessionEnv session "PERPLEXITY_API_KEY").or
          (envGet processEnv "PERPLEXITY_API_KEY")).truthy <;>
        cases ((sessionEnv session "ANTHROPIC_API_KEY").or
          (envGet processEnv "ANTHROPIC_API_KEY")).truthy <;> simp

theorem getAnthropicClientForMCP_key_of_ok (OpenAI : OpenAICtor) (processEnv : Env)
    (session : Option Session) (client : JSVal)
    (h : (getAnthropicClientForMCP OpenAI processEnv session).result = .ok client) :
    ((sessionEnv session "ANTHROPIC_API_KEY").or
      (envGet processEnv "ANTHROPIC_API_KEY")).truthy = true := by
  by_contra hk
  rw [Bool.not_eq_true] at hk
  rw [getAnthropicClientForMCP_missing OpenAI processEnv session hk] at h
  simp at h

/-- C1: whenever a primary credential is resolvable and the primary builder
returns a client, `getBestAvailableAIModel` returns the `claude` result with
exactly that client, for every `requiresResearch`, every import outcome of
the secondary library and every environment; its `modelName` is
`openai/gpt-4o` when `claudeOverloaded` is true and
`anthropic/claude-3.7-sonnet` when it is false or omitted, and with the
options omitted altogether the result is the default model. -/
theorem getBestAvailableAIModel_primary (OpenAI : OpenAICtor)
    (importOpenAI : Except JSError OpenAICtor) (processEnv : Env) (session : Option Session)
    (options : Options) (client : JSVal)
    (hcred : credentialResolvable processEnv session "ANTHROPIC_API_KEY")
    (hbuilt : (getAnthropicClientForMCP OpenAI processEnv session).result = .ok client) :
    (getBestAvailableAIModel OpenAI importOpenAI processEnv session options).result =
        .ok { type := "claude", client := client,
              modelName := some (if options.claudeOverloaded = some true then "openai/gpt-4o"
                else "anthropic/claude-3.7-sonnet") } ∧
      (getBestAvailableAIModel OpenAI importOpenAI processEnv session).result =
        .ok { type := "claude", client := client,
              modelName := some "anthropic/claude-3.7-sonnet" } := by
  have hkey := (resolvable_iff processEnv session "ANTHROPIC_API_KEY").2 hcred
  constructor
  · rw [getBest_primary OpenAI importOpenAI processEnv session options client hkey hbuilt]
    rcases options with ⟨rr, _ | _ | _⟩ <;> simp
  · rw [getBest_primary OpenAI importOpenAI processEnv session {} client hkey hbuilt]
    simp

/-- C1, witness: with the key only in the process environment, a
constructor returning a well-shaped client, research required and Claude
overloaded, the result is the `claude` one with `openai/gpt-4o`. -/
theorem getBestAvailableAIModel_primary_witness :
    (getBestAvailableAIModel echoClient (.ok failingClient) [("ANTHROPIC_API_KEY", "sk-or-1")]
        none { requiresResearch := some true, claudeOverloaded := some true }).result =
      .ok { type := "claude",
            client := .obj [("apiKey", .str "sk-or-1"),
              ("baseURL", .str "https://openrouter.ai/api/v1"),
              ("chat", .obj [("completions", .obj [])])],
            modelName := some "openai/gpt-4o" } :=
  (getBestAvailableAIModel_primary echoClient (.ok failingClient)
    [("ANTHROPIC_API_KEY", "sk-or-1")] none
    { requiresResearch := some true, claudeOverloaded := some true } _
    (Or.inr ⟨"sk-or-1", rfl, by decide⟩) rfl).1

/-- C2: with `requiresResearch` true, the primary path unavailable (no
primary credential resolvable, or the primary builder throws), a secondary
credential resolvable and the secondary builder returning a client, the
result is the `perplexity` one with exactly that client and no `modelName`. -/
theorem getBestAvailableAIModel_secondary (OpenAI : OpenAICtor)
    (importOpenAI : Except JSError OpenAICtor) (processEnv : Env) (session : Option Session)
    (options : Options) (client : JSVal)
    (hresearch : options.requiresResearch = some true)
    (hprimary : ¬ credentialResolvable processEnv session "ANTHROPIC_API_KEY" ∨
      ∃ e, (getAnthropicClientForMCP OpenAI processEnv session).result = .error e)
    (hcred : credentialResolvable processEnv session "PERPLEXITY_API_KEY")
    (hbuilt : (getPerplexityClientForMCP importOpenAI processEnv session).result = .ok client) :
    (getBestAvailableAIModel OpenAI importOpenAI processEnv session options).result =
      .ok { type := "perplexity", client := client, modelName := none } := by
  apply getBest_secondary
  · rcases hprimary with h | h
    · left
      rw [← resolvable_iff, Bool.not_eq_true] at h
      exact h
    · exact Or.inr h
  · rw [hresearch]; rfl
  · exact (resolvable_iff processEnv session "PERPLEXITY_API_KEY").2 hcred
  · exact hbuilt

/-- C2, witness: the primary constructor throws, the session provides the
secondary key, and the secondary library returns a client. -/
theorem getBestAvailableAIModel_secondary_witness :
    (getBestAvailableAIModel failingClient (.ok echoClient) [("ANTHROPIC_API_KEY", "sk-or-1")]
        (some ⟨some [("PERPLEXITY_API_KEY", "pplx-1")]⟩) { requiresResearch := some true }).result =
      .ok { type := "perplexity",
            client := .obj [("apiKey", .str "pplx-1"),
              ("baseURL", .str "https://api.perplexity.ai"),
              ("chat", .obj [("completions", .obj [])])],
            modelName := none } :=
  getBestAvailableAIModel_secondary failingClient (.ok echoClient)
    [("ANTHROPIC_API_KEY", "sk-or-1")] (some ⟨some [("PERPLEXITY_API_KEY", "pplx-1")]⟩)
    { requiresResearch := some true } _ rfl (Or.inr ⟨_, rfl⟩)
    (Or.inl ⟨"pplx-1", rfl, by decide⟩) rfl

/-- C3: `getBestAvailableAIModel` throws exactly when the primary path
yields no client (no primary credential resolvable, or the primary builder
throws) and the secondary path yields none either (`requiresResearch` is not
true, or no secondary credential is resolvable, or the secondary builder
throws); and whatever it throws is the error with the message
`No AI models available. Please check your API keys.`, so that no error of
a builder reaches the caller. -/
theorem getBestAvailableAIModel_throws_iff (OpenAI : OpenAICtor)
    (importOpenAI : Except JSError OpenAICtor) (processEnv : Env) (session : Option Session)
    (options : Options) :
    ((∃ e, (getBestAvailableAIModel OpenAI importOpenAI processEnv session options).result =
          .error e) ↔
        (¬ credentialResolvable processEnv session "ANTHROPIC_API_KEY" ∨
            ∃ e, (getAnthropicClientForMCP OpenAI processEnv session).result = .error e) ∧
          (options.requiresResearch ≠ some true ∨
            ¬ credentialResolvable processEnv session "PERPLEXITY_API_KEY" ∨
            ∃ e, (getPerplexityClientForMCP importOpenAI processEnv session).result = .error e)) ∧
      ∀ e, (getBestAvailableAIModel OpenAI importOpenAI processEnv session options).result =
          .error e →
        e = mkError "No AI models available. Please check your API keys." := by
  have hrr : options.requiresResearch.getD false = true ↔ options.requiresResearch = some true := by
    rcases options with ⟨_ | _ | _, co⟩ <;> simp
  rw [← resolvable_iff, ← resolvable_iff]
  by_cases hA : ∃ client, (getAnthropicClientForMCP OpenAI processEnv session).result = .ok client
  · obtain ⟨client, hA⟩ := hA
    have hkey := getAnthropicClientForMCP_key_of_ok _ _ _ _ hA
    rw [getBest_primary OpenAI importOpenAI processEnv session options client hkey hA]
    simp [hkey, hA]
  · have hA2 : ∃ e, (getAnthropicClientForMCP OpenAI processEnv session).result = .error e := by
      cases hres : (getAnthropicClientForMCP OpenAI processEnv session).result with
      | error e => exact ⟨e, rfl⟩
      | ok client => exact absurd ⟨client, hres⟩ hA
    by_cases hS : options.requiresResearch = some true ∧
        ((sessionEnv session "PERPLEXITY_API_KEY").or
          (envGet processEnv "PERPLEXITY_API_KEY")).truthy = true ∧
        ∃ client, (getPerplexityClientForMCP importOpenAI processEnv session).result = .ok client
    · obtain ⟨h1, h2, client, h3⟩ := hS
      rw [getBest_secondary OpenAI importOpenAI processEnv session options client (Or.inr hA2)
        (hrr.2 h1) h2 h3]
      simp [h1, h2, h3]
    · have hS2 : options.requiresResearch.getD false = false ∨
          ((sessionEnv session "PERPLEXITY_API_KEY").or
            (envGet processEnv "PERPLEXITY_API_KEY")).truthy = false ∨
          ∃ e, (getPerplexityClientForMCP importOpenAI processEnv session).result = .error e := by
        by_contra hcon
        simp only [not_or, Bool.not_eq_false, not_exists] at hcon
        obtain ⟨c1, c2, c3⟩ := hcon
        cases hres : (getPerplexityClientForMCP importOpenAI processEnv session).result with
        | error e => exact c3 e hres
        | ok client => exact hS ⟨hrr.1 c1, c2, client, hres⟩
      rw [getBest_exhausted OpenAI importOpenAI processEnv session options (Or.inr hA2) hS2]
      refine ⟨⟨fun _ => ⟨Or.inr hA2, ?_⟩, fun _ => ⟨_, rfl⟩⟩, fun e he => ?_⟩
      · rcases hS2 with h | h | h
        · left
          intro hc
          rw [hrr.2 hc] at h
          exact Bool.noConfusion h
        · right; left
          rw [h]
          simp
        · exact Or.inr (Or.inr h)
      · injection he with he
        exact he.symm

/-- C3, witness: without any key the selection throws the fixed error. -/
theorem getBestAvailableAIModel_throws_iff_witness :
    (getBestAvailableAIModel echoClient (.ok echoClient) [] none
        { requiresResearch := some true }).result =
      .error (mkError "No AI models available. Please check your API keys.") :=
  congrArg Except.error
    ((getBestAvailableAIModel_throws_iff echoClient (.ok echoClient) [] none
      { requiresResearch := some true }).2 _ rfl)

/-! ## The client builders: credentials and logging -/

theorem or_of_session (a b : JSVal) (s : String) (ha : a = .str s) (hs : s ≠ "") :
    a.or b = .str s := by
  subst ha
  simp [JSVal.or, JSVal.truthy, hs]

theorem or_of_process (a b : JSVal) (ha : a = .undefined ∨ ∃ s, a = .str s)
    (hn : ¬ providesNonEmpty a) : a.or b = b := by
  have : a.truthy = false := by
    rw [← Bool.not_eq_true, truthy_iff_providesNonEmpty a ha]
    exact hn
  simp [JSVal.or, this]

/-- C7: for each builder and every environment: the builder fails with the
missing-credential error of its key, whatever the client library does,
exactly when neither the session nor the process environment provides a
non-empty string for the key; when the session provides a non-empty value it
is the API key handed to the client constructor (whatever the process
environment holds), and the process-wide value is handed over when it is
non-empty and the session provides none. -/
theorem builders_credential (processEnv : Env) (session : Option Session) :
    ((¬ credentialResolvable processEnv session "ANTHROPIC_API_KEY") ↔
        ∀ OpenAI : OpenAICtor, (getAnthropicClientForMCP OpenAI processEnv session).result =
          .error (mkError "ANTHROPIC_API_KEY not found in session environment or process.env")) ∧
      (∀ s : String, sessionEnv session "ANTHROPIC_API_KEY" = .str s → s ≠ "" →
        ∀ OpenAI : OpenAICtor, (getAnthropicClientForMCP OpenAI processEnv session).result =
          verifiedClient (OpenAI (openRouterConfig processEnv session (.str s)))) ∧
      (∀ p : String, ¬ providesNonEmpty (sessionEnv session "ANTHROPIC_API_KEY") →
        envGet processEnv "ANTHROPIC_API_KEY" = .str p → p ≠ "" →
        ∀ OpenAI : OpenAICtor, (getAnthropicClientForMCP OpenAI processEnv session).result =
          verifiedClient (OpenAI (openRouterConfig processEnv session (.str p)))) ∧
      ((¬ credentialResolvable processEnv session "PERPLEXITY_API_KEY") ↔
        ∀ importOpenAI : Except JSError OpenAICtor,
          (getPerplexityClientForMCP importOpenAI processEnv session).result =
            .error (mkError "PERPLEXITY_API_KEY not found in session environment or process.env")) ∧
      (∀ s : String, sessionEnv session "PERPLEXITY_API_KEY" = .str s → s ≠ "" →
        ∀ importOpenAI : Except JSError OpenAICtor,
          (getPerplexityClientForMCP importOpenAI processEnv session).result =
            Except.bind importOpenAI fun OpenAI => OpenAI (perplexityConfig (.str s))) ∧
      (∀ p : String, ¬ providesNonEmpty (sessionEnv session "PERPLEXITY_API_KEY") →
        envGet processEnv "PERPLEXITY_API_KEY" = .str p → p ≠ "" →
        ∀ importOpenAI : Except JSError OpenAICtor,
          (getPerplexityClientForMCP importOpenAI processEnv session).result =
            Except.bind importOpenAI fun OpenAI => OpenAI (perplexityConfig (.str p))) := by
  have hA : ∀ (k : String) (OpenAI : OpenAICtor),
      (sessionEnv session "ANTHROPIC_API_KEY").or (envGet processEnv "ANTHROPIC_API_KEY") = .str k →
      k ≠ "" →
      (getAnthropicClientForMCP OpenAI processEnv session).result =
        verifiedClient (OpenAI (openRouterConfig processEnv session (.str k))) := by
    intro k OpenAI hk hne
    rw [getAnthropicClientForMCP_present OpenAI processEnv session (.str k) hk
      (by simp [JSVal.truthy, hne])]
    unfold verifiedClient
    cases OpenAI (openRouterConfig processEnv session (.str k)) with
    | error e => rfl
    | ok client => by_cases hs : clientShapeOk client = true <;> simp [hs]
  have hP : ∀ (k : String) (importOpenAI : Except JSError OpenAICtor),
      (sessionEnv session "PERPLEXITY_API_KEY").or (envGet processEnv "PERPLEXITY_API_KEY") = .str k →
      k ≠ "" →
      (getPerplexityClientForMCP importOpenAI processEnv session).result =
        Except.bind importOpenAI fun OpenAI => OpenAI (perplexityConfig (.str k)) := by
    intro k importOpenAI hk hne
    rw [getPerplexityClientForMCP_present importOpenAI processEnv session (.str k) hk
      (by simp [JSVal.truthy, hne])]
    cases importOpenAI with
    | error e => rfl
    | ok OpenAI =>
      simp only [Except.bind]
      cases OpenAI (perplexityConfig (.str k)) with
      | error e => rfl
      | ok client => rfl
  refine ⟨⟨?_, ?_⟩, ?_, ?_, ⟨?_, ?_⟩, ?_, ?_⟩
  · intro hno OpenAI
    rw [← resolvable_iff, Bool.not_eq_true] at hno
    rw [getAnthropicClientForMCP_missing OpenAI processEnv session hno]
  · intro hall hcred
    have hkey := (resolvable_iff processEnv session "ANTHROPIC_API_KEY").2 hcred
    have h := hall echoClient
    rw [getAnthropicClientForMCP_present echoClient processEnv session _ rfl hkey] at h
    simp [echoClient, clientShapeOk, JSVal.truthy, JSVal.get, List.lookup] at h
  · intro s hs hne OpenAI
    exact hA s OpenAI (or_of_session _ _ s hs hne) hne
  · intro p hno hp hne OpenAI
    refine hA p OpenAI ?_ hne
    rw [or_of_process _ _ (sessionEnv_cases session _) hno, hp]
  · intro hno importOpenAI
    rw [← resolvable_iff, Bool.not_eq_true] at hno
    rw [getPerplexityClientForMCP_missing importOpenAI processEnv session hno]
  · intro hall hcred
    have hkey := (resolvable_iff processEnv session "PERPLEXITY_API_KEY").2 hcred
    have h := hall (.ok echoClient)
    rw [getPerplexityClientForMCP_present (.ok echoClient) processEnv session _ rfl hkey] at h
    simp [echoClient] at h
  · intro s hs hne importOpenAI
    exact hP s importOpenAI (or_of_session _ _ s hs hne) hne
  · intro p hno hp hne importOpenAI
    refine hP p importOpenAI ?_ hne
    rw [or_of_process _ _ (sessionEnv_cases session _) hno, hp]

/-- C7, witness: the session and the process environment hold different
keys, and the client is built with the one of the session. -/
theorem builders_credential_witness :
    (getAnthropicClientForMCP echoClient [("ANTHROPIC_API_KEY", "process-key")]
        (some ⟨some [("ANTHROPIC_API_KEY", "session-key")]⟩)).result =
      .ok (.obj [("apiKey", .str "session-key"), ("baseURL", .str "https://openrouter.ai/api/v1"),
        ("chat", .obj [("completions", .obj [])])]) :=
  (builders_credential [("ANTHROPIC_API_KEY", "process-key")]
    (some ⟨some [("ANTHROPIC_API_KEY", "session-key")]⟩)).2.1 "session-key" rfl (by decide)
    echoClient

theorem getAnthropicClientForMCP_logs_eq (OpenAI₁ OpenAI₂ : OpenAICtor)
    (processEnv₁ processEnv₂ : Env) (session₁ session₂ : Option Session) (key₁ key₂ : String)
    (hk₁ : (sessionEnv session₁ "ANTHROPIC_API_KEY").or
      (envGet processEnv₁ "ANTHROPIC_API_KEY") = .str key₁)
    (hk₂ : (sessionEnv session₂ "ANTHROPIC_API_KEY").or
      (envGet processEnv₂ "ANTHROPIC_API_KEY") = .str key₂)
    (hlen : utf16Length key₁ = utf16Length key₂)
    (hurl : resolvedSiteUrl processEnv₁ session₁ = resolvedSiteUrl processEnv₂ session₂)
    (hname : resolvedSiteName processEnv₁ session₁ = resolvedSiteName processEnv₂ session₂)
    (hlib : sameBehaviour (OpenAI₁ (openRouterConfig processEnv₁ session₁ (.str key₁)))
      (OpenAI₂ (openRouterConfig processEnv₂ session₂ (.str key₂)))) :
    (getAnthropicClientForMCP OpenAI₁ processEnv₁ session₁).logs =
      (getAnthropicClientForMCP OpenAI₂ processEnv₂ session₂).logs := by
  have hempty : key₁ = "" ↔ key₂ = "" := by
    have h0 : ∀ k : String, k = "" ↔ utf16Length k = 0 := by
      intro k
      constructor
      · rintro rfl; rfl
      · intro h
        rcases k with ⟨_ | ⟨c, cs⟩⟩
        · rfl
        · exfalso
          simp only [utf16Length, List.map_cons, List.sum_cons] at h
          split_ifs at h <;> omega
    rw [h0, h0, hlen]
  by_cases he : key₁ = ""
  · have he2 := hempty.1 he
    rw [getAnthropicClientForMCP_missing OpenAI₁ processEnv₁ session₁ (by rw [hk₁, he]; rfl),
      getAnthropicClientForMCP_missing OpenAI₂ processEnv₂ session₂ (by rw [hk₂, he2]; rfl)]
  · have he2 : key₂ ≠ "" := fun h => he (hempty.2 h)
    rw [getAnthropicClientForMCP_present OpenAI₁ processEnv₁ session₁ _ hk₁
        (by simp [JSVal.truthy, he]),
      getAnthropicClientForMCP_present OpenAI₂ processEnv₂ session₂ _ hk₂
        (by simp [JSVal.truthy, he2])]
    have hpre : openRouterPreamble processEnv₁ session₁ (.str key₁) =
        openRouterPreamble processEnv₂ session₂ (.str key₂) := by
      simp [openRouterPreamble, hurl, hname, JSVal.get, hlen]
    rw [hpre]
    unfold sameBehaviour at hlib
    cases h1 : OpenAI₁ (openRouterConfig processEnv₁ session₁ (.str key₁)) with
    | error e₁ =>
      cases h2 : OpenAI₂ (openRouterConfig processEnv₂ session₂ (.str key₂)) with
      | error e₂ =>
        rw [h1, h2] at hlib
        simp only at hlib
        simp [hlib]
      | ok c₂ => rw [h1, h2] at hlib; exact absurd hlib (by simp)
    | ok c₁ =>
      cases h2 : OpenAI₂ (openRouterConfig processEnv₂ session₂ (.str key₂)) with
      | error e₂ => rw [h1, h2] at hlib; exact absurd hlib (by simp)
      | ok c₂ =>
        rw [h1, h2] at hlib
        simp only at hlib
        simp only [hlib]
        by_cases hs : clientShapeOk c₂ = true <;> simp [hs]

/-- C9: the messages handed to the logger by `getAnthropicClientForMCP` do
not depend on the content of the API key, only on its length: two
invocations whose environments agree on every variable other than
`ANTHROPIC_API_KEY`, whose API keys have the same length, and in which the
client library behaves the same, log the same sequence of messages. -/
theorem getAnthropicClientForMCP_logs_hide_key (OpenAI : OpenAICtor)
    (processEnv₁ processEnv₂ : Env) (session₁ session₂ : Option Session) (key₁ key₂ : String)
    (hsession : ∀ name, name ≠ "ANTHROPIC_API_KEY" →
      sessionEnv session₁ name = sessionEnv session₂ name)
    (hprocess : ∀ name, name ≠ "ANTHROPIC_API_KEY" →
      envGet processEnv₁ name = envGet processEnv₂ name)
    (hk₁ : (sessionEnv session₁ "ANTHROPIC_API_KEY").or
      (envGet processEnv₁ "ANTHROPIC_API_KEY") = .str key₁)
    (hk₂ : (sessionEnv session₂ "ANTHROPIC_API_KEY").or
      (envGet processEnv₂ "ANTHROPIC_API_KEY") = .str key₂)
    (hlen : utf16Length key₁ = utf16Length key₂)
    (hlib : sameBehaviour (OpenAI (openRouterConfig processEnv₁ session₁ (.str key₁)))
      (OpenAI (openRouterConfig processEnv₂ session₂ (.str key₂)))) :
    (getAnthropicClientForMCP OpenAI processEnv₁ session₁).logs =
      (getAnthropicClientForMCP OpenAI processEnv₂ session₂).logs := by
  apply getAnthropicClientForMCP_logs_eq OpenAI OpenAI processEnv₁ processEnv₂ session₁ session₂
    key₁ key₂ hk₁ hk₂ hlen _ _ hlib
  · unfold resolvedSiteUrl
    rw [hsession "YOUR_SITE_URL" (by decide), hprocess "YOUR_SITE_URL" (by decide)]
  · unfold resolvedSiteName
    rw [hsession "YOUR_SITE_NAME" (by decide), hprocess "YOUR_SITE_NAME" (by decide)]

/-- C9, witness: two sessions that differ in the key only, `sk-or-aaaa` and
`sk-or-bbbb`, with the same site name, log the same lines. -/
theorem getAnthropicClientForMCP_logs_hide_key_witness :
    (getAnthropicClientForMCP echoClient []
        (some ⟨some [("ANTHROPIC_API_KEY", "sk-or-aaaa"), ("YOUR_SITE_NAME", "Acme")]⟩)).logs =
      (getAnthropicClientForMCP echoClient []
        (some ⟨some [("ANTHROPIC_API_KEY", "sk-or-bbbb"), ("YOUR_SITE_NAME", "Acme")]⟩)).logs :=
  getAnthropicClientForMCP_logs_hide_key echoClient [] []
    (some ⟨some [("ANTHROPIC_API_KEY", "sk-or-aaaa"), ("YOUR_SITE_NAME", "Acme")]⟩)
    (some ⟨some [("ANTHROPIC_API_KEY", "sk-or-bbbb"), ("YOUR_SITE_NAME", "Acme")]⟩)
    "sk-or-aaaa" "sk-or-bbbb"
    (fun name h => by
      have hb : (name == "ANTHROPIC_API_KEY") = false := beq_eq_false_iff_ne.2 h
      simp [sessionEnv, envGet, List.lookup, hb])
    (fun _ _ => rfl) rfl rfl (by decide)
    (by simp [sameBehaviour, echoClient, clientShapeOk, JSVal.truthy, JSVal.get, List.lookup])

/-! ## `parseInt` on decimal renderings -/

theorem digitChar_toNat (k : Nat) (hk : k < 10) :
    (Nat.digitChar k).toNat = 48 + k := by
  interval_cases k <;> rfl

theorem digitValue_decimal (c : Char) (hc : 48 ≤ c.toNat ∧ c.toNat ≤ 57) :
    digitValue 10 c = some (c.toNat - 48) := by
  unfold digitValue
  simp only [hc, and_self, if_true]
  simp [Option.filter]
  omega

theorem toDigitsCore_decimal (fuel : Nat) :
    ∀ (n : Nat) (ds : List Char), n < fuel →
      ∃ l, Nat.toDigitsCore 10 fuel n ds = l ++ ds ∧ l ≠ [] ∧
        (∀ c ∈ l, 48 ≤ c.toNat ∧ c.toNat ≤ 57) ∧
        l.foldl (fun acc c => acc * 10 + (digitValue 10 c).getD 0) 0 = n := by
  induction fuel with
  | zero => intro n ds h; omega
  | succ fuel ih =>
    intro n ds hn
    have hd := digitChar_toNat (n % 10) (Nat.mod_lt _ (by norm_num))
    have hdr : 48 ≤ (Nat.digitChar (n % 10)).toNat ∧ (Nat.digitChar (n % 10)).toNat ≤ 57 := by
      omega
    unfold Nat.toDigitsCore
    by_cases h0 : n / 10 = 0
    · refine ⟨[Nat.digitChar (n % 10)], by simp [h0], by simp, ?_, ?_⟩
      · intro c hc
        rw [List.mem_singleton] at hc
        rw [hc]; exact hdr
      · simp only [List.foldl_cons, List.foldl_nil, digitValue_decimal _ hdr, Option.getD_some]
        omega
    · obtain ⟨l, hl, hne, hdig, hval⟩ := ih (n / 10) (Nat.digitChar (n % 10) :: ds) (by omega)
      refine ⟨l ++ [Nat.digitChar (n % 10)], by simp [h0, hl], by simp, ?_, ?_⟩
      · intro c hc
        rw [List.mem_append, List.mem_singleton] at hc
        rcases hc with hc | hc
        · exact hdig c hc
        · rw [hc]; exact hdr
      · rw [List.foldl_append, hval]
        simp only [List.foldl_cons, List.foldl_nil, digitValue_decimal _ hdr, Option.getD_some]
        omega

theorem repr_decimal (n : Nat) :
    (toString n).data ≠ [] ∧ (∀ c ∈ (toString n).data, 48 ≤ c.toNat ∧ c.toNat ≤ 57) ∧
      (toString n).data.foldl (fun acc c => acc * 10 + (digitValue 10 c).getD 0) 0 = n := by
  obtain ⟨l, hl, hne, hdig, hval⟩ := toDigitsCore_decimal (n + 1) n [] (by omega)
  have : (toString n).data = l := by
    show (Nat.toDigits 10 n).asString.data = l
    unfold Nat.toDigits
    rw [hl]
    simp [List.asString]
  rw [this]
  exact ⟨hne, hdig, hval⟩

theorem digit_not_space (c : Char) (hc : 48 ≤ c.toNat ∧ c.toNat ≤ 57) :
    isStrWhiteSpace c = false := by
  unfold isStrWhiteSpace
  simp
  omega

theorem takeWhile_digits (l : List Char) (hdig : ∀ c ∈ l, 48 ≤ c.toNat ∧ c.toNat ≤ 57) :
    l.takeWhile (fun c => (digitValue 10 c).isSome) = l := by
  rw [List.takeWhile_eq_self_iff]
  intro c hc
  rw [digitValue_decimal c (hdig c hc)]
  rfl

theorem not_hex_of_digits (l : List Char) (hdig : ∀ c ∈ l, 48 ≤ c.toNat ∧ c.toNat ≤ 57) :
    (l.take 2 == [Char.ofNat 48, Char.ofNat 120] || l.take 2 == [Char.ofNat 48, Char.ofNat 88])
      = false := by
  rcases l with _ | ⟨c, _ | ⟨d, l⟩⟩
  · rfl
  · simp
  · have hd := hdig d (by simp)
    have h1 : d ≠ Char.ofNat 120 := by
      intro h; rw [h] at hd; revert hd; decide
    have h2 : d ≠ Char.ofNat 88 := by
      intro h; rw [h] at hd; revert hd; decide
    simp [h1, h2]

theorem parseIntChars_unsigned (numberOfInteger : Int → JSVal) (l : List Char) (hne : l ≠ [])
    (hdig : ∀ c ∈ l, 48 ≤ c.toNat ∧ c.toNat ≤ 57)
    (hsafe : l.foldl (fun acc c => acc * 10 + (digitValue 10 c).getD 0) 0 ≤ maxExactInteger) :
    parseIntChars numberOfInteger l =
      .num (l.foldl (fun acc c => acc * 10 + (digitValue 10 c).getD 0) 0 : Nat) := by
  obtain ⟨c, cs, rfl⟩ := List.exists_cons_of_ne_nil hne
  have hc := hdig c (by simp)
  have h1 : c ≠ Char.ofNat 45 := by
    intro h; rw [h] at hc; revert hc; decide
  have h2 : c ≠ Char.ofNat 43 := by
    intro h; rw [h] at hc; revert hc; decide
  unfold parseIntChars
  simp only [List.dropWhile_cons, digit_not_space c hc, Bool.false_eq_true, if_false,
    List.head?_cons]
  have e1 : (some c == some (Char.ofNat 45)) = false := by simp [h1]
  have e2 : (some c == some (Char.ofNat 43)) = false := by simp [h2]
  simp only [e1, e2, Bool.or_self, Bool.false_eq_true, if_false, not_hex_of_digits _ hdig,
    takeWhile_digits _ hdig]
  simp only [List.foldl_cons, Nat.zero_mul, Nat.zero_add] at hsafe
  simp only [List.isEmpty_cons, Bool.false_eq_true, if_false, List.foldl_cons, Nat.zero_mul,
    Nat.zero_add, if_pos hsafe, if_true]

theorem parseIntChars_negative (numberOfInteger : Int → JSVal) (l : List Char) (hne : l ≠ [])
    (hdig : ∀ c ∈ l, 48 ≤ c.toNat ∧ c.toNat ≤ 57)
    (hsafe : l.foldl (fun acc c => acc * 10 + (digitValue 10 c).getD 0) 0 ≤ maxExactInteger) :
    parseIntChars numberOfInteger (Char.ofNat 45 :: l) =
      .num (-((l.foldl (fun acc c => acc * 10 + (digitValue 10 c).getD 0) 0 : Nat) : Int)) := by
  obtain ⟨c, cs, rfl⟩ := List.exists_cons_of_ne_nil hne
  unfold parseIntChars
  have hs : isStrWhiteSpace (Char.ofNat 45) = false := by decide
  simp only [List.dropWhile_cons, hs, Bool.false_eq_true, if_false, List.head?_cons]
  have e1 : (some (Char.ofNat 45) == some (Char.ofNat 45)) = true := by simp
  simp only [e1, Bool.true_or, if_true, List.tail_cons, not_hex_of_digits _ hdig,
    takeWhile_digits _ hdig, Bool.false_eq_true, if_false]
  simp only [List.foldl_cons, Nat.zero_mul, Nat.zero_add] at hsafe
  simp only [List.isEmpty_cons, Bool.false_eq_true, if_false, List.foldl_cons, Nat.zero_mul,
    Nat.zero_add, if_pos hsafe, if_true]

theorem toString_int_ne_empty (k : Int) : toString k ≠ "" := by
  intro h
  have hd := congrArg String.data h
  cases k with
  | ofNat n => exact (repr_decimal n).1 hd
  | negSucc n =>
    change ("-" ++ toString (n + 1)).data = [] at hd
    rw [String.data_append] at hd
    exact List.noConfusion hd

theorem parseInt_toString (numberOfInteger : Int → JSVal) (k : Int)
    (hk : k.natAbs ≤ maxExactInteger) :
    parseIntChars numberOfInteger (toString k).data = .num k := by
  cases k with
  | ofNat n =>
    obtain ⟨hne, hdig, hval⟩ := repr_decimal n
    have hn : n ≤ maxExactInteger := by simpa using hk
    show parseIntChars numberOfInteger (toString n).data = _
    rw [parseIntChars_unsigned _ _ hne hdig (by rw [hval]; exact hn), hval]
    rfl
  | negSucc n =>
    obtain ⟨hne, hdig, hval⟩ := repr_decimal (n + 1)
    have hn : n + 1 ≤ maxExactInteger := by simpa [Int.natAbs] using hk
    show parseIntChars numberOfInteger ("-" ++ toString (n + 1)).data = _
    rw [String.data_append]
    show parseIntChars numberOfInteger (Char.ofNat 45 :: (toString (n + 1)).data) = _
    rw [parseIntChars_negative _ _ hne hdig (by rw [hval]; exact hn), hval]
    rfl

theorem parseIntChars_nan (numberOfInteger : Int → JSVal) (c : Char) (cs : List Char)
    (hspace : isStrWhiteSpace c = false)
    (hminus : c ≠ Char.ofNat 45) (hplus : c ≠ Char.ofNat 43)
    (hdigit : ¬ (48 ≤ c.toNat ∧ c.toNat ≤ 57)) :
    parseIntChars numberOfInteger (c :: cs) = .nan := by
  have h0 : c ≠ Char.ofNat 48 := by
    intro h; rw [h] at hdigit; revert hdigit; decide
  have hv : (digitValue 10 c).isSome = false := by
    unfold digitValue
    simp only [hdigit, if_false]
    split_ifs with h1 h2
    · have : ¬ (c.toNat - 87 < 10) := by omega
      simp [Option.filter, this]
    · have : ¬ (c.toNat - 55 < 10) := by omega
      simp [Option.filter, this]
    · rfl
  unfold parseIntChars
  simp only [List.dropWhile_cons, hspace, Bool.false_eq_true, if_false, List.head?_cons]
  have e1 : (some c == some (Char.ofNat 45)) = false := by simp [hminus]
  have e2 : (some c == some (Char.ofNat 43)) = false := by simp [hplus]
  simp only [e1, e2, Bool.or_self, Bool.false_eq_true, if_false]
  have e3 : (List.take 2 (c :: cs) == [Char.ofNat 48, Char.ofNat 120] ||
      List.take 2 (c :: cs) == [Char.ofNat 48, Char.ofNat 88]) = false := by
    cases cs <;> simp [h0]
  simp only [e3, Bool.false_eq_true, if_false, List.takeWhile_cons, hv]
  rfl

/-! ## `getModelConfig`: properties -/

theorem or_undefined_or_str (a b : JSVal) (ha : a = .undefined ∨ ∃ s, a = .str s) :
    (∀ s, a = .str s → s ≠ "" → a.or b = .str s) ∧ (¬ providesNonEmpty a → a.or b = b) :=
  ⟨fun s hs hne => or_of_session a b s hs hne, fun hn => or_of_process a b ha hn⟩

/-- C8 (amended): `getModelConfig` resolves each of the three fields on its
own with the precedence: the session-scoped value (`MODEL`, `MAX_TOKENS`,
`TEMPERATURE`) when it is a non-empty string, otherwise the supplied
default; `maxTokens` is `parseInt` and `temperature` is `parseFloat` of the
value chosen.  The process-wide environment is not read. -/
theorem getModelConfig_precedence (numberOfInteger : Int → JSVal)
    (parseFloat : String → JSVal) (session : Option Session) (defaults : ModelDefaults) :
    ((∀ s : String, sessionEnv session "MODEL" = .str s → s ≠ "" →
          (getModelConfig numberOfInteger parseFloat session defaults).model = .str s) ∧
        (¬ providesNonEmpty (sessionEnv session "MODEL") →
          (getModelConfig numberOfInteger parseFloat session defaults).model =
            defaults.model)) ∧
      ((∀ s : String, sessionEnv session "MAX_TOKENS" = .str s → s ≠ "" →
          (getModelConfig numberOfInteger parseFloat session defaults).maxTokens =
            parseInt numberOfInteger (.str s)) ∧
        (¬ providesNonEmpty (sessionEnv session "MAX_TOKENS") →
          (getModelConfig numberOfInteger parseFloat session defaults).maxTokens =
            parseInt numberOfInteger defaults.maxTokens)) ∧
      ((∀ s : String, sessionEnv session "TEMPERATURE" = .str s → s ≠ "" →
          (getModelConfig numberOfInteger parseFloat session defaults).temperature =
            parseFloat s) ∧
        (¬ providesNonEmpty (sessionEnv session "TEMPERATURE") →
          (getModelConfig numberOfInteger parseFloat session defaults).temperature =
            parseFloat defaults.temperature.toStr)) := by
  have h1 := or_undefined_or_str (sessionEnv session "MODEL") defaults.model
    (sessionEnv_cases session "MODEL")
  have h2 := or_undefined_or_str (sessionEnv session "MAX_TOKENS") defaults.maxTokens
    (sessionEnv_cases session "MAX_TOKENS")
  have h3 := or_undefined_or_str (sessionEnv session "TEMPERATURE") defaults.temperature
    (sessionEnv_cases session "TEMPERATURE")
  unfold getModelConfig
  refine ⟨⟨fun s hs hne => h1.1 s hs hne, fun hn => h1.2 hn⟩,
    ⟨fun s hs hne => ?_, fun hn => ?_⟩, ⟨fun s hs hne => ?_, fun hn => ?_⟩⟩
  · simp only [h2.1 s hs hne]
  · simp only [h2.2 hn]
  · simp only [h3.1 s hs hne, JSVal.toStr]
  · simp only [h3.2 hn]

/-- C8, witness: a session that overrides only `TEMPERATURE` leaves `model`
and `maxTokens` to the defaults. -/
theorem getModelConfig_precedence_witness :
    (getModelConfig numberOfIntegerText parseFloatText
        (some ⟨some [("TEMPERATURE", "0.7")]⟩)).temperature = parseFloatText "0.7" ∧
      (getModelConfig numberOfIntegerText parseFloatText
        (some ⟨some [("TEMPERATURE", "0.7")]⟩)).model = DEFAULT_MODEL_CONFIG.model ∧
      (getModelConfig numberOfIntegerText parseFloatText
        (some ⟨some [("TEMPERATURE", "0.7")]⟩)).maxTokens =
        parseInt numberOfIntegerText DEFAULT_MODEL_CONFIG.maxTokens :=
  ⟨(getModelConfig_precedence numberOfIntegerText parseFloatText
      (some ⟨some [("TEMPERATURE", "0.7")]⟩) DEFAULT_MODEL_CONFIG).2.2.1 "0.7" rfl (by decide),
    (getModelConfig_precedence numberOfIntegerText parseFloatText
      (some ⟨some [("TEMPERATURE", "0.7")]⟩) DEFAULT_MODEL_CONFIG).1.2
      (by rintro ⟨s, hs, _⟩; cases hs),
    (getModelConfig_precedence numberOfIntegerText parseFloatText
      (some ⟨some [("TEMPERATURE", "0.7")]⟩) DEFAULT_MODEL_CONFIG).2.1.2
      (by rintro ⟨s, hs, _⟩; cases hs)⟩

/-- C8, counterexample: with `MODEL` set only process-wide, the precedence
of the specification takes the process-wide value, and `getModelConfig`
returns the default instead. -/
theorem getModelConfig_ignores_process_env :
    specResolveField (sessionEnv none "MODEL") (envGet [("MODEL", "openai/gpt-4o")] "MODEL")
        DEFAULT_MODEL_CONFIG.model = .str "openai/gpt-4o" ∧
      (getModelConfig numberOfIntegerText parseFloatText none DEFAULT_MODEL_CONFIG).model =
        .str "anthropic/claude-3.7-sonnet" ∧
      (getModelConfig numberOfIntegerText parseFloatText none DEFAULT_MODEL_CONFIG).model ≠
        specResolveField (sessionEnv none "MODEL") (envGet [("MODEL", "openai/gpt-4o")] "MODEL")
          DEFAULT_MODEL_CONFIG.model := by
  refine ⟨rfl, rfl, ?_⟩
  rw [show (getModelConfig numberOfIntegerText parseFloatText none DEFAULT_MODEL_CONFIG).model =
      .str "anthropic/claude-3.7-sonnet" from rfl,
    show specResolveField (sessionEnv none "MODEL") (envGet [("MODEL", "openai/gpt-4o")] "MODEL")
      DEFAULT_MODEL_CONFIG.model = .str "openai/gpt-4o" from rfl]
  intro h
  injection h with h
  revert h
  decide

/-- C10 (amended): a non-empty session `MAX_TOKENS` is parsed with
`parseInt` and the defaults are not consulted: the decimal rendering of an
integer of magnitude at most `2^53` gives that integer, and a text whose
first character is neither white space, a sign nor a digit (as `abc`) gives
`NaN`.  When the session provides no non-empty `MAX_TOKENS` and
`defaults.maxTokens` is an integer of magnitude at most `2^53`, `maxTokens`
is that integer. -/
theorem getModelConfig_maxTokens (numberOfInteger : Int → JSVal)
    (parseFloat : String → JSVal) (session : Option Session) (defaults : ModelDefaults) :
    (∀ s : String, sessionEnv session "MAX_TOKENS" = .str s → s ≠ "" →
        (getModelConfig numberOfInteger parseFloat session defaults).maxTokens =
          parseInt numberOfInteger (.str s)) ∧
      (∀ k : Int, k.natAbs ≤ maxExactInteger →
        sessionEnv session "MAX_TOKENS" = .str (toString k) →
        (getModelConfig numberOfInteger parseFloat session defaults).maxTokens = .num k) ∧
      (∀ (c : Char) (cs : List Char), sessionEnv session "MAX_TOKENS" = .str ⟨c :: cs⟩ →
        isStrWhiteSpace c = false → c ≠ Char.ofNat 45 → c ≠ Char.ofNat 43 →
        ¬ (48 ≤ c.toNat ∧ c.toNat ≤ 57) →
        (getModelConfig numberOfInteger parseFloat session defaults).maxTokens = .nan) ∧
      (∀ n : Int, n.natAbs ≤ maxExactInteger →
        ¬ providesNonEmpty (sessionEnv session "MAX_TOKENS") →
        defaults.maxTokens = .num n →
        (getModelConfig numberOfInteger parseFloat session defaults).maxTokens = .num n) := by
  have h2 := or_undefined_or_str (sessionEnv session "MAX_TOKENS") defaults.maxTokens
    (sessionEnv_cases session "MAX_TOKENS")
  unfold getModelConfig
  refine ⟨fun s hs hne => ?_, fun k hsafe hk => ?_, fun c cs hs c1 c2 c3 c4 => ?_,
    fun n hsafe hn hd => ?_⟩
  · simp only [h2.1 s hs hne]
  · simp only [h2.1 _ hk (toString_int_ne_empty k)]
    exact parseInt_toString numberOfInteger k hsafe
  · have hcs : (⟨c :: cs⟩ : String) ≠ "" := by
      intro h
      have := congrArg String.data h
      exact List.noConfusion this
    simp only [h2.1 _ hs hcs]
    exact parseIntChars_nan numberOfInteger c cs c1 c2 c3 c4
  · simp only [h2.2 hn]
    rw [hd]
    exact parseInt_toString numberOfInteger n hsafe

/-- C10, witness: the session value `4096` gives the integer 4096. -/
theorem getModelConfig_maxTokens_witness :
    (getModelConfig numberOfIntegerText parseFloatText
        (some ⟨some [("MAX_TOKENS", "4096")]⟩)).maxTokens = .num 4096 :=
  (getModelConfig_maxTokens numberOfIntegerText parseFloatText
    (some ⟨some [("MAX_TOKENS", "4096")]⟩) DEFAULT_MODEL_CONFIG).2.1 4096 (by decide) rfl

/-- C10, counterexample: with the session value `abc` and the default
64000, `maxTokens` is `NaN`, not the default. -/
theorem getModelConfig_maxTokens_abc :
    (getModelConfig numberOfIntegerText parseFloatText (some ⟨some [("MAX_TOKENS", "abc")]⟩)
        DEFAULT_MODEL_CONFIG).maxTokens = .nan ∧
      DEFAULT_MODEL_CONFIG.maxTokens = .num 64000 ∧
      (getModelConfig numberOfIntegerText parseFloatText (some ⟨some [("MAX_TOKENS", "abc")]⟩)
        DEFAULT_MODEL_CONFIG).maxTokens ≠ DEFAULT_MODEL_CONFIG.maxTokens := by
  refine ⟨rfl, rfl, ?_⟩
  rw [show (getModelConfig numberOfIntegerText parseFloatText
    (some ⟨some [("MAX_TOKENS", "abc")]⟩) DEFAULT_MODEL_CONFIG).maxTokens = .nan from rfl]
  intro h
  exact JSVal.noConfusion h

/-- With no session value and the default `1e21`, a positive integer beyond
`2^53` whose rendering is `1e+21`, `parseInt` stops at the `e`: `maxTokens`
is 1. -/
theorem getModelConfig_maxTokens_large_default :
    (getModelConfig numberOfIntegerText parseFloatText none
        { model := DEFAULT_MODEL, maxTokens := .real "1e+21",
          temperature := DEFAULT_TEMPERATURE }).maxTokens = .num 1 := by
  rfl

end OpenRouterTaskMaster
